import Mathlib

/-!
# A model of the RWA loan-tokenization backend

This file is a shallow embedding, in Lean, of the core components of a Django
backend that administers tokenized private-credit loans:

* the metadata commitment codec (`app/services/helpers.py`:
  `create_loan_metadata`, `calculate_metadata_hash`), including Python's
  `json.dumps(..., sort_keys=True, separators=(',', ':'))` serialization and
  a byte-level SHA-256;
* the integrity check (`app/models.py`: `Loan.check_integrity`);
* the blockchain-event reconciler (`app/tasks.py`: `sync_blockchain_events`),
  folding `TokenCreated` / `TransferSingle` / `DividendsDeposited` events into
  the `Loan` / `Investor` / `InvestorPosition` / `CashflowHistory` tables and
  the `SyncState` cursor;
* the management command (`management/commands/sync_chain.py`);
* the yield distribution view (`spv_admin/app/views.py`:
  `spv_distribute_payment`).

Conventions of the embedding:

* Database rows are entries of Lean lists; a Django `get_or_create` either
  finds the first matching entry or appends a fresh one, and a `save` of a
  fetched row updates the first matching entry in place (`updateFirst`).
* Python `Decimal` values are modelled as exact rationals (`ℚ`).  Python's
  default `Decimal` context rounds every operation to 28 significant digits
  (half-even); the ledger fields are database decimals of at most 18 digits
  and every division appearing in a theorem below is exact well within 28
  significant digits, so the context rounding is the identity on all values
  reasoned about here.  The explicit roundings the source performs
  (`quantize(Decimal("0.000001"))`, `"{:.2f}".format`) are modelled
  explicitly with half-even rounding, `Decimal`'s default.
* External effects (the Routescan transaction feed, the Ape receipt lookup,
  the IPFS fetch, the on-chain write calls) are inputs of the model: the
  transaction list, the per-token metadata, and the outcome of each chain
  call are parameters.
* Exceptions are modelled with `Except` / result pairs; a Django
  `transaction.atomic` block that raises is modelled by discarding the
  half-applied state, and an uncaught exception stops the run with the state
  persisted so far.
-/

set_option synthInstance.maxHeartbeats 1000000

set_option allowUnsafeReducibility true
attribute [semireducible] Rat.add Rat.mul Rat.sub Rat.div Rat.inv Rat.neg
attribute [semireducible] Rat.normalize

namespace RWA

/-! ## Half-even rounding (the `decimal` module's default) -/

/-- Floor of a rational as an integer (`Int.fdiv` is floored division). -/
def ratFloor (q : ℚ) : ℤ := Int.fdiv q.num q.den

/-- Round a rational to the nearest integer, ties to even: the rounding mode
`decimal.ROUND_HALF_EVEN`, the default of Python's `Decimal` context. -/
def roundHalfEven (q : ℚ) : ℤ :=
  let n := ratFloor q
  let r := q - (n : ℚ)
  if r < 1 / 2 then n
  else if 1 / 2 < r then n + 1
  else if n % 2 = 0 then n else n + 1

/-- Round to `d` decimal places, half-even: `Decimal.quantize(Decimal("0.0…01"))`. -/
def quantizeDp (d : ℕ) (q : ℚ) : ℚ :=
  (roundHalfEven (q * (10 : ℚ) ^ d) : ℚ) / (10 : ℚ) ^ d

/-- Round to six decimal places: `share.quantize(Decimal("0.000001"))`
in `sync_blockchain_events` (tasks.py line 180). -/
def quantize6 (q : ℚ) : ℚ := quantizeDp 6 q

/-! ## SHA-256 (`hashlib.sha256`), executable over byte lists -/

/-- Reduce to a 32-bit word. -/
def w32 (x : ℕ) : ℕ := x % 4294967296

/-- Right rotation of a 32-bit word by `n`. -/
def rotr (n x : ℕ) : ℕ := w32 ((x >>> n) ||| (x <<< (32 - n)))

def bSig0 (x : ℕ) : ℕ := rotr 2 x ^^^ rotr 13 x ^^^ rotr 22 x

def bSig1 (x : ℕ) : ℕ := rotr 6 x ^^^ rotr 11 x ^^^ rotr 25 x

def sSig0 (x : ℕ) : ℕ := rotr 7 x ^^^ rotr 18 x ^^^ (x >>> 3)

def sSig1 (x : ℕ) : ℕ := rotr 17 x ^^^ rotr 19 x ^^^ (x >>> 10)

/-- The 64 SHA-256 round constants. -/
def shaK : List ℕ :=
  [1116352408, 1899447441, 3049323471, 3921009573, 961987163, 1508970993, 2453635748, 2870763221,
   3624381080, 310598401, 607225278, 1426881987, 1925078388, 2162078206, 2614888103, 3248222580,
   3835390401, 4022224774, 264347078, 604807628, 770255983, 1249150122, 1555081692, 1996064986,
   2554220882, 2821834349, 2952996808, 3210313671, 3336571891, 3584528711, 113926993, 338241895,
   666307205, 773529912, 1294757372, 1396182291, 1695183700, 1986661051, 2177026350, 2456956037,
   2730485921, 2820302411, 3259730800, 3345764771, 3516065817, 3600352804, 4094571909, 275423344,
   430227734, 506948616, 659060556, 883997877, 958139571, 1322822218, 1537002063, 1747873779,
   1955562222, 2024104815, 2227730452, 2361852424, 2428436474, 2756734187, 3204031479, 3329325298]

/-- The initial SHA-256 hash state. -/
def shaH0 : List ℕ :=
  [1779033703, 3144134277, 1013904242, 2773480762, 1359893119, 2600822924, 528734635, 1541459225]

/-- Big-endian 8-byte encoding of a natural number. -/
def be8 (n : ℕ) : List ℕ :=
  (List.range 8).map fun i => (n >>> (8 * (7 - i))) &&& 255

/-- SHA-256 padding: append `0x80`, zeros, and the 64-bit big-endian bit length. -/
def padMessage (msg : List ℕ) : List ℕ :=
  let L := msg.length
  let k := (119 - (L % 64)) % 64
  msg ++ (128 :: List.replicate k 0) ++ be8 (8 * L)

/-- Split into 64-byte blocks; the fuel argument keeps the recursion
structural so that the kernel can unfold it. -/
def toBlocksAux : ℕ → List ℕ → List (List ℕ)
  | 0, _ => []
  | fuel + 1, l => if l = [] then [] else l.take 64 :: toBlocksAux fuel (l.drop 64)

def toBlocks (l : List ℕ) : List (List ℕ) := toBlocksAux l.length l

/-- The 16 initial 32-bit words of a block, big-endian. -/
def blockWords (b : List ℕ) : List ℕ :=
  (List.range 16).map fun i =>
    b.getD (4 * i) 0 * 16777216 + b.getD (4 * i + 1) 0 * 65536 +
      b.getD (4 * i + 2) 0 * 256 + b.getD (4 * i + 3) 0

/-- Extend the message schedule by `n` further words. -/
def extendWs : ℕ → List ℕ → List ℕ
  | 0, acc => acc
  | n + 1, acc =>
      let m := acc.length
      extendWs n (acc ++ [w32 (sSig1 (acc.getD (m - 2) 0) + acc.getD (m - 7) 0 +
        sSig0 (acc.getD (m - 15) 0) + acc.getD (m - 16) 0)])

/-- One compression round. -/
def shaRound (st : List ℕ) (kw : ℕ × ℕ) : List ℕ :=
  match st with
  | [a, b, c, d, e, f, g, h] =>
      let t1 := w32 (h + bSig1 e + ((e &&& f) ^^^ (w32 (4294967295 - e) &&& g)) + kw.1 + kw.2)
      let t2 := w32 (bSig0 a + ((a &&& b) ^^^ (a &&& c) ^^^ (b &&& c)))
      [w32 (t1 + t2), a, b, c, w32 (d + t1), e, f, g]
  | st => st

/-- Compress one 64-byte block into the running hash state. -/
def compressBlock (hs : List ℕ) (b : List ℕ) : List ℕ :=
  let ws := extendWs 48 (blockWords b)
  let fin := (shaK.zip ws).foldl shaRound hs
  (hs.zip fin).map fun p => w32 (p.1 + p.2)

/-- SHA-256 of a byte list, as eight 32-bit words. -/
def sha256Words (msg : List ℕ) : List ℕ :=
  (toBlocks (padMessage msg)).foldl compressBlock shaH0

def hexChar (n : ℕ) : Char :=
  if n < 10 then Char.ofNat (48 + n) else Char.ofNat (87 + n)

/-- Lowercase hex rendering of a 32-bit word, 8 digits. -/
def wordHex (w : ℕ) : String :=
  String.mk ((List.range 8).map fun i => hexChar ((w >>> (4 * (7 - i))) &&& 15))

/-- Hexadecimal SHA-256 digest of a byte list: `hashlib.sha256(...).hexdigest()`. -/
def sha256Hex (msg : List ℕ) : String :=
  String.join ((sha256Words msg).map wordHex)

/-- UTF-8 encoding of one character. -/
def utf8Char (c : Char) : List ℕ :=
  let n := c.toNat
  if n < 128 then [n]
  else if n < 2048 then [192 ||| (n >>> 6), 128 ||| (n &&& 63)]
  else if n < 65536 then [224 ||| (n >>> 12), 128 ||| ((n >>> 6) &&& 63), 128 ||| (n &&& 63)]
  else [240 ||| (n >>> 18), 128 ||| ((n >>> 12) &&& 63), 128 ||| ((n >>> 6) &&& 63),
        128 ||| (n &&& 63)]

/-- UTF-8 bytes of a string: Python's `str.encode('utf-8')`. -/
def utf8Bytes (s : String) : List ℕ := s.data.flatMap utf8Char

/-! ## A JSON model and Python's `json.dumps` / `json.loads`

The documents this codebase serializes have only string and integer leaves
(`create_loan_metadata` formats every decimal quantity as a fixed two-decimal
string and casts counts with `int(...)`), so the JSON value model carries
strings, integers, arrays and objects.  Objects keep their Python dict
insertion order; serialization sorts keys (`sort_keys=True`). -/

inductive J where
  | str (s : String)
  | int (n : ℤ)
  | arr (xs : List J)
  | obj (fields : List (String × J))

/-- Escape one character as `json.dumps` does with its default
`ensure_ascii=True`: `"` and `\` and the short control escapes, `\uXXXX`
for other control or non-ASCII characters. -/
def escChar (c : Char) : List Char :=
  if c = '\"' then ['\\', '\"']
  else if c = '\\' then ['\\', '\\']
  else if c = Char.ofNat 10 then ['\\', 'n']
  else if c = Char.ofNat 13 then ['\\', 'r']
  else if c = Char.ofNat 9 then ['\\', 't']
  else if c = Char.ofNat 8 then ['\\', 'b']
  else if c = Char.ofNat 12 then ['\\', 'f']
  else if c.toNat < 32 || 127 <= c.toNat then
    if c.toNat < 65536 then
      '\\' :: 'u' :: (List.range 4).map fun i => hexChar ((c.toNat >>> (4 * (3 - i))) &&& 15)
    else
      let n := c.toNat - 65536
      let hi := 55296 + (n >>> 10)
      let lo := 56320 + (n &&& 1023)
      ('\\' :: 'u' :: (List.range 4).map fun i => hexChar ((hi >>> (4 * (3 - i))) &&& 15)) ++
        ('\\' :: 'u' :: (List.range 4).map fun i => hexChar ((lo >>> (4 * (3 - i))) &&& 15))
  else [c]

/-- A JSON string literal as `json.dumps` renders it. -/
def pyStrLit (s : String) : String :=
  "\"" ++ String.mk (s.data.flatMap escChar) ++ "\""

/-- Strict lexicographic comparison of code-point sequences: how Python
compares strings. -/
def charListLt : List Char → List Char → Bool
  | _, [] => false
  | [], _ :: _ => true
  | a :: as, b :: bs =>
      if a.toNat < b.toNat then true
      else if b.toNat < a.toNat then false
      else charListLt as bs

/-- Key order used by `sort_keys=True`: Python compares strings by code
points. -/
def keyLe (a b : String) : Bool := !(charListLt b.data a.data)

/-- Insert into a key-sorted association list (stable, like `sorted`). -/
def insertByKey (x : String × J) : List (String × J) → List (String × J)
  | [] => [x]
  | y :: ys => if keyLe x.1 y.1 then x :: y :: ys else y :: insertByKey x ys

/-- Stable insertion sort by key, the order `sort_keys=True` emits fields in. -/
def sortByKey (l : List (String × J)) : List (String × J) :=
  l.foldr insertByKey []

/-- Serialize, fuel-structured so the kernel can unfold it.  The fuel mirrors
CPython's recursion limit: `json.dumps` raises `RecursionError` on documents
nested deeper than the interpreter's limit, and no document in this system
nests deeper than a handful of levels. -/
def dumpsFuel : ℕ → J → String
  | 0, _ => ""
  | f + 1, j =>
      match j with
      | .str s => pyStrLit s
      | .int n => toString n
      | .arr xs => "[" ++ ",".intercalate (xs.map (dumpsFuel f)) ++ "]"
      | .obj fs =>
          "\x7b" ++
            ",".intercalate
              ((sortByKey fs).map fun p => pyStrLit p.1 ++ ":" ++ dumpsFuel f p.2) ++
            "\x7d"

/-- Python's `json.dumps(doc, sort_keys=True, separators=(',', ':'))`. -/
def dumpsSorted (doc : J) : String := dumpsFuel 1000 doc

/-! ### `json.loads`, enough of it to parse what `dumpsSorted` emits -/

def isWs (c : Char) : Bool :=
  c = ' ' || c = Char.ofNat 9 || c = Char.ofNat 10 || c = Char.ofNat 13

def skipWs : List Char → List Char
  | [] => []
  | c :: cs => if isWs c then skipWs cs else c :: cs

def isDigit (c : Char) : Bool := 48 <= c.toNat && c.toNat <= 57

def hexVal (c : Char) : ℕ :=
  if isDigit c then c.toNat - 48
  else if 97 <= c.toNat && c.toNat <= 102 then c.toNat - 87
  else if 65 <= c.toNat && c.toNat <= 70 then c.toNat - 55
  else 0

/-- Parse the body of a JSON string literal (after the opening quote). -/
def parseStrBody : List Char → List Char → Option (String × List Char)
  | acc, '\"' :: rest => some (String.mk acc.reverse, rest)
  | acc, '\\' :: e :: rest =>
      if e = 'n' then parseStrBody (Char.ofNat 10 :: acc) rest
      else if e = 'r' then parseStrBody (Char.ofNat 13 :: acc) rest
      else if e = 't' then parseStrBody (Char.ofNat 9 :: acc) rest
      else if e = 'b' then parseStrBody (Char.ofNat 8 :: acc) rest
      else if e = 'f' then parseStrBody (Char.ofNat 12 :: acc) rest
      else if e = '/' then parseStrBody ('/' :: acc) rest
      else if e = '\\' then parseStrBody ('\\' :: acc) rest
      else if e = '\"' then parseStrBody ('\"' :: acc) rest
      else if e = 'u' then
        match rest with
        | h1 :: h2 :: h3 :: h4 :: rest2 =>
            let n := hexVal h1 * 4096 + hexVal h2 * 256 + hexVal h3 * 16 + hexVal h4
            parseStrBody (Char.ofNat n :: acc) rest2
        | _ => none
      else none
  | acc, c :: rest => parseStrBody (c :: acc) rest
  | _, [] => none

/-- Consume a run of digits. -/
def parseDigits : ℕ → List Char → ℕ × List Char
  | acc, c :: cs => if isDigit c then parseDigits (acc * 10 + (c.toNat - 48)) cs else (acc, c :: cs)
  | acc, [] => (acc, [])

inductive PMode where
  | value
  | elems (acc : List J)
  | members (acc : List (String × J))

/-- The recursive core of `json.loads`, restricted to the string / integer /
array / object grammar this system's documents use.  Structural on fuel. -/
def parseCore : ℕ → PMode → List Char → Option (J × List Char)
  | 0, _, _ => none
  | f + 1, mode, cs =>
    match mode, cs with
    | .value, cs =>
      match skipWs cs with
      | '\"' :: rest => (parseStrBody [] rest).map fun p => (J.str p.1, p.2)
      | '[' :: rest =>
          (match skipWs rest with
           | ']' :: r2 => some (J.arr [], r2)
           | _ => parseCore f (.elems []) rest)
      | '\x7b' :: rest =>
          (match skipWs rest with
           | '\x7d' :: r2 => some (J.obj [], r2)
           | _ => parseCore f (.members []) rest)
      | '-' :: rest =>
          (match rest with
           | c :: _ =>
               if isDigit c then
                 let p := parseDigits 0 rest
                 some (J.int (-(p.1 : ℤ)), p.2)
               else none
           | [] => none)
      | c :: rest =>
          if isDigit c then
            let p := parseDigits 0 (c :: rest)
            some (J.int (p.1 : ℤ), p.2)
          else none
      | [] => none
    | .elems acc, cs =>
      match parseCore f .value cs with
      | some (v, rest) =>
          (match skipWs rest with
           | ',' :: r2 => parseCore f (.elems (acc ++ [v])) r2
           | ']' :: r2 => some (J.arr (acc ++ [v]), r2)
           | _ => none)
      | none => none
    | .members acc, cs =>
      match skipWs cs with
      | '\"' :: rest =>
          match parseStrBody [] rest with
          | some (k, r1) =>
              (match skipWs r1 with
               | ':' :: r2 =>
                   match parseCore f .value r2 with
                   | some (v, r3) =>
                       (match skipWs r3 with
                        | ',' :: r4 => parseCore f (.members (acc ++ [(k, v)])) r4
                        | '\x7d' :: r4 => some (J.obj (acc ++ [(k, v)]), r4)
                        | _ => none)
                   | none => none
               | _ => none)
          | none => none
      | _ => none

/-- Python's `json.loads`, on the grammar above: the document a verifier gets
back from the content store (`resp.json()` in `Loan.check_integrity`). -/
def pyJsonLoads (s : String) : Option J :=
  match parseCore 1000 .value s.data with
  | some (v, rest) => if skipWs rest = [] then some v else none
  | none => none

/-! ## The metadata commitment codec (`app/services/helpers.py`) -/

/-- Two-decimal fixed rendering, `"{:.2f}".format(d)` of a `Decimal`:
round half-even to two places, then print with exactly two decimals. -/
def format2f (q : ℚ) : String :=
  let c := roundHalfEven (q * 100)
  let a := c.natAbs
  let sign := if c < 0 then "-" else ""
  let frac := a % 100
  sign ++ toString (a / 100) ++ "." ++ (if frac < 10 then "0" else "") ++ toString frac

/-- The `Loan` row (`app/models.py`), restricted to the fields the verified
components read or write.  Date fields hold their ISO-8601 rendering, which
is what `date.isoformat()` yields, and `DecimalField` values are the exact
rationals the database stores (two decimal places for the financial fields,
so `str(...)` and `"{:.2f}".format(...)` agree on them). -/
structure LoanRow where
  loan_id : String
  title : String
  borrower : String
  principal : ℚ
  annual_interest_rate : ℚ
  term_months : ℤ
  start_date : String
  maturity_date : String
  monthly_payment : ℚ
  status : String
  token_contract : String
  token_id : Option ℕ
  total_slices : ℤ
  unit_price_usdc : ℚ
  metadata_cid : Option String
  metadata_hash : Option String
  tokenized : Bool
deriving DecidableEq

/-- One attribute entry, in the dict insertion order of the source. -/
def traitAttr (t : String) (v : J) (d : String) : J :=
  J.obj [("trait_type", J.str t), ("value", v), ("display_type", J.str d)]

/-- The function `create_loan_metadata(loan)` from `investor_portal/app/services/helpers.py`
(lines 13 to 41).  `site` is `settings.SITE_BASE_URL`. -/
def create_loan_metadata (site : String) (loan : LoanRow) : J :=
  J.obj
    [("name", J.str ("Loan " ++ loan.loan_id)),
     ("description",
       J.str ("Private Credit RWA - $" ++ format2f loan.principal ++ " " ++ loan.title)),
     ("image", J.str "ipfs://QmYourPropertyImageHash"),
     ("external_url", J.str ("https://" ++ site ++ "/loan/" ++ loan.loan_id)),
     ("attributes", J.arr
       [traitAttr "Principal" (J.str (format2f loan.principal)) "number",
        traitAttr "APR" (J.str (format2f loan.annual_interest_rate)) "percentage",
        traitAttr "Unit Price USDC" (J.str (format2f loan.unit_price_usdc)) "number",
        traitAttr "Term Months" (J.int loan.term_months) "number",
        traitAttr "Total Slices" (J.int loan.total_slices) "number",
        traitAttr "Maturity Date" (J.str loan.maturity_date) "date",
        traitAttr "Start Date" (J.str loan.start_date) "date",
        traitAttr "Monthly Payment" (J.str (format2f loan.monthly_payment)) "number",
        traitAttr "Borrower" (J.str loan.borrower) "string",
        J.obj [("trait_type", J.str "Asset Class"), ("value", J.str "Private Credit")]])]

/-- The function `calculate_metadata_hash(metadata_dict)` (helpers.py lines 44 to 52):
serialize with sorted keys and `separators=(',', ':')`, encode UTF-8, SHA-256
hex digest.  The `DecimalEncoder` never fires on these documents: every leaf
is already a string or an `int`. -/
def calculate_metadata_hash (doc : J) : String :=
  sha256Hex (utf8Bytes (dumpsSorted doc))

/-- The property `Loan.check_integrity` (`app/models.py` lines 46 to 68).  The external
fetch-and-parse (`requests.get(...).json()`) is the input: `.error` for any
failure of the fetch or of the JSON parse (the bare `except:` returns
`False` for every exception), `.ok doc` for a successfully parsed document.
The property reads the stored `metadata_hash` and writes nothing. -/
def check_integrity (metadata_hash : Option String) (fetched : Except Unit J) : Bool :=
  match fetched with
  | .error _ => false
  | .ok live =>
      match metadata_hash with
      | some h => calculate_metadata_hash live == h
      | none => false


/-! ## The ledger data model (`app/models.py`), as reconciliation state

Rows are list entries.  An `Investor` row is identified by the exact
`wallet_address` string it was created with (Django's `get_or_create`
matches it verbatim); an `InvestorPosition` points at an investor's address
and at a loan's `loan_id`; `CashflowHistory.tx_hash` is a unique column. -/

structure Position where
  investor : String
  loan : String
  slices_owned : ℚ
  balance_due : ℚ
deriving DecidableEq

structure Cashflow where
  loan : String
  investor : String
  amount : ℚ
  tx_hash : String
  description : String
deriving DecidableEq

/-- The tables `sync_blockchain_events` reads and writes, plus the
`SyncState` row `key="hq_master_sync"` (`last_synced_block`). -/
structure DB where
  loans : List LoanRow
  investors : List String
  positions : List Position
  cashflows : List Cashflow
  last_synced_block : ℕ
deriving DecidableEq

/-- The values `sync_blockchain_events` extracts from the token metadata
document on a mint (tasks.py lines 90 to 119): `meta.get("name", "")`,
`meta.get("description", ...)` and the `get_trait` lookups with their
defaults.  The document comes from the external content store, so the
extracted values are inputs of the model. -/
structure MintMeta where
  name : String
  description : Option String
  principal : ℚ
  apr : ℚ
  unit_price_usdc : ℚ
  total_slices : ℤ
  term_months : ℤ
  borrower : String
  maturity_date : String
  monthly_payment : ℚ
  metadata_hash : String
deriving DecidableEq

/-- Settings and external read interfaces of the reconciler:
`settings.ADMIN_ADDRESSES`, `settings.MASTER_RWA_ADDRESS`, the contract's
`tokenURI` view call, and the content-store fetch plus trait extraction. -/
structure Config where
  admin_addresses : List String
  master_address : String
  tokenURI : ℕ → String
  fetchMeta : String → MintMeta

/-- The decoded receipt events `sync_blockchain_events` dispatches on by
`event_name` (tasks.py lines 74 to 199).  `fingerprintHex` is
`event.fingerprint.hex()`. -/
inductive Event where
  | tokenCreated (id : ℕ) (fingerprintHex : String)
  | transferSingle (id : ℕ) (from_ to_ : String) (value : ℕ)
  | dividendsDeposited (tokenId : ℕ) (amount : ℕ)
deriving DecidableEq

/-- One entry of the Routescan transaction list together with its fetched
receipt: hash, block number, `receipt.status` and decoded events. -/
structure Tx where
  hash : String
  blockNumber : ℕ
  status : ℕ
  events : List Event
deriving DecidableEq

/-- Apply `f` to the first entry satisfying `p`: the `save()` of a row
fetched by `get` / `get_or_create` / `update_or_create`. -/
def updateFirst {α : Type} (p : α → Bool) (f : α → α) : List α → List α
  | [] => []
  | x :: xs => if p x then f x :: xs else x :: updateFirst p f xs

def zeroAddress : String := "0x0000000000000000000000000000000000000000"

/-- Python's `str.replace(pat, rep)`: leftmost, non-overlapping, all
occurrences.  Fuel-structured on the input length. -/
def replaceAllAux (pat rep : List Char) : ℕ → List Char → List Char
  | 0, s => s
  | f + 1, s =>
      match s with
      | [] => []
      | c :: cs =>
          if pat.isPrefixOf (c :: cs) then
            rep ++ replaceAllAux pat rep f ((c :: cs).drop pat.length)
          else c :: replaceAllAux pat rep f cs

def pyReplace (s pat rep : String) : String :=
  String.mk (replaceAllAux pat.data rep.data s.data.length s.data)

/-- Python's `str.startswith`, on code points. -/
def pyStartsWith (s pre : String) : Bool := pre.data.isPrefixOf s.data

/-- The helper `get_clean_cid` (tasks.py lines 24 to 28). -/
def get_clean_cid (uri : String) : String :=
  if pyStartsWith uri "ipfs://" then pyReplace uri "ipfs://" "" else uri

/-- Python's `str.lower()`; wallet addresses are ASCII, where it agrees
with `Char.toLower`. -/
def pyLower (s : String) : String := String.mk (s.data.map Char.toLower)

/-- A `Loan` row as Django builds one from field defaults alone
(`update_or_create` by `token_id` with only status fields in `defaults`).
Fields with no model default are blank or zero here; `total_slices` and
`unit_price_usdc` default to 100 and `status` to `performing`. -/
def blankLoan : LoanRow :=
  { loan_id := "", title := "", borrower := "", principal := 0,
    annual_interest_rate := 0, term_months := 0, start_date := "",
    maturity_date := "", monthly_payment := 0, status := "performing",
    token_contract := "", token_id := none, total_slices := 100,
    unit_price_usdc := 100, metadata_cid := none, metadata_hash := none,
    tokenized := false }


/-- Django `Investor.objects.get_or_create(wallet_address=a)`: keep the table if a
row with this exact address exists, append one otherwise. -/
def getOrAppend (l : List String) (a : String) : List String :=
  if l.contains a then l else l ++ [a]

/-- Django `Loan.objects.update_or_create` / the get-then-create sequence: update
the first row matching `key` with `apply`, or append `apply base`. -/
def upsertLoan (key : LoanRow → Bool) (apply : LoanRow → LoanRow) (base : LoanRow)
    (loans : List LoanRow) : List LoanRow :=
  match loans.find? key with
  | some _ => updateFirst key apply loans
  | none => loans ++ [apply base]

/-- Django `InvestorPosition.objects.get_or_create` with zero default,
followed by `pos.slices_owned += value; pos.save()` — the receiver-side code
of both the mint branch (tasks.py lines 137 to 144) and the transfer branch
(lines 159 to 164). -/
def posAdd (who lid : String) (v : ℕ) (ps : List Position) : List Position :=
  match ps.find? (fun p => p.investor == who && p.loan == lid) with
  | some _ =>
      updateFirst (fun p => p.investor == who && p.loan == lid)
        (fun p => { p with slices_owned := p.slices_owned + (v : ℚ) }) ps
  | none => ps ++ [{ investor := who, loan := lid, slices_owned := (v : ℚ), balance_due := 0 }]

/-- The dividend share of one position, exactly as tasks.py lines 174-180
compute it: `actual_amount = Decimal(event.amount) / Decimal(10**6)`, then
multiply by the slices before dividing by the total, then quantize to six
decimal places. -/
def reconciler_share (amount : ℕ) (slices : ℚ) (total : ℤ) : ℚ :=
  quantize6 ((amount : ℚ) / 1000000 * slices / (total : ℚ))

/-- The `DividendsDeposited` position loop (tasks.py lines 176 to 199):
for each position of the loan, `update_or_create` a `CashflowHistory` row
keyed by `unique_id = f"{tx['hash']}"`, and credit `balance_due` only when
the row was newly created. -/
def divFold (txHash : String) (blk : ℕ) (loan : LoanRow) (amount : ℕ) :
    List Position → DB → DB
  | [], db => db
  | pos :: rest, db =>
      let share := reconciler_share amount pos.slices_owned loan.total_slices
      let unique_id := txHash
      let descr := "Yield Dist for Block " ++ toString blk
      match db.cashflows.find? (fun c => c.tx_hash == unique_id) with
      | some _ =>
          divFold txHash blk loan amount rest
            { db with cashflows :=
                (updateFirst (fun c => c.tx_hash == unique_id)
                  (fun c => { c with
                    loan := loan.loan_id, investor := pos.investor,
                    amount := share, description := descr }) db.cashflows) }
      | none =>
          let db1 := { db with cashflows :=
            (db.cashflows ++
              [({ loan := loan.loan_id, investor := pos.investor, amount := share,
                  tx_hash := unique_id, description := descr } : Cashflow)]) }
          divFold txHash blk loan amount rest
            { db1 with positions :=
                (updateFirst (fun p => p.investor == pos.investor && p.loan == pos.loan)
                  (fun p => { p with balance_due := p.balance_due + share }) db1.positions) }

/-- One event of one receipt, dispatched as tasks.py lines 74 to 199 do.
`.error` models an uncaught Django exception; a failing
`transaction.atomic` block leaves no half-applied writes, which the model
renders by returning no state on error. -/
def processEvent (cfg : Config) (txHash : String) (blk : ℕ) (db : DB) :
    Event → Except String DB
  | .tokenCreated id fp =>
      .ok { db with loans :=
        (upsertLoan (fun l => l.token_id == some id)
          (fun l => { l with
            tokenized := true, status := "performing", metadata_hash := some fp })
          { blankLoan with token_id := some id } db.loans) }
  | .transferSingle id fr to_ v =>
      if fr = zeroAddress then
        -- the mint case (tasks.py lines 85 to 144)
        let cid := get_clean_cid (cfg.tokenURI id)
        let meta := cfg.fetchMeta cid
        let lid0 := pyReplace meta.name "Loan " ""
        let lid := if lid0 = "" then toString id else lid0
        let applyDefaults := fun (l : LoanRow) =>
          { l with
            tokenized := true, status := "performing", metadata_cid := some cid,
            title := meta.description.getD ("Loan #" ++ toString id),
            principal := meta.principal, annual_interest_rate := meta.apr,
            unit_price_usdc := meta.unit_price_usdc, total_slices := meta.total_slices,
            term_months := meta.term_months, borrower := meta.borrower,
            token_contract := cfg.master_address, maturity_date := meta.maturity_date,
            monthly_payment := meta.monthly_payment, token_id := some id,
            metadata_hash := some meta.metadata_hash }
        let loans1 :=
          upsertLoan (fun l => l.loan_id == lid) applyDefaults
            { blankLoan with loan_id := lid } db.loans
        if cfg.admin_addresses.contains to_ then
          .ok { db with loans := loans1 }
        else
          -- NOTE the receiver lookup uses `event.to` verbatim (line 132),
          -- unlike the transfer branch, which lower-cases addresses.
          .ok { db with
                loans := loans1,
                investors := getOrAppend db.investors to_,
                positions := posAdd to_ lid v db.positions }
      else
        -- the secondary transfer case (tasks.py lines 146 to 164)
        match db.loans.find? (fun l => l.token_id == some id) with
        | none => .error "Loan matching query does not exist."
        | some loan =>
          let sAddr := pyLower fr
          let skey := fun (p : Position) => p.investor == sAddr && p.loan == loan.loan_id
          match db.positions.find? skey with
          | none =>
              -- InvestorPosition.objects.get raises; the atomic block rolls
              -- back the sender-side get_or_create.
              .error "InvestorPosition matching query does not exist."
          | some _ =>
            let positions1 :=
              updateFirst skey (fun p => { p with slices_owned := p.slices_owned - v })
                db.positions
            let rAddr := pyLower to_
            .ok { db with
                  investors := getOrAppend (getOrAppend db.investors sAddr) rAddr,
                  positions := posAdd rAddr loan.loan_id v positions1 }
  | .dividendsDeposited tokenId amount =>
      match db.loans.find? (fun l => l.token_id == some tokenId) with
      | none => .ok db
      | some loan =>
        if loan.total_slices ≤ 0 then .ok db
        else
          .ok (divFold txHash blk loan amount
            (db.positions.filter (fun p => p.loan == loan.loan_id)) db)

/-- The events of one receipt, in log order.  A raised exception stops the
loop; each event's own atomic block has already committed, so the state
reached so far is kept. -/
def runEvents (cfg : Config) (txHash : String) (blk : ℕ) :
    List Event → DB → DB × Option String
  | [], db => (db, none)
  | e :: es, db =>
      match processEvent cfg txHash blk db e with
      | .ok db1 => runEvents cfg txHash blk es db1
      | .error msg => (db, some msg)

/-- One transaction of the Routescan list (tasks.py lines 68 to 203):
receipts with `status != 1` are skipped entirely (including the cursor
write); otherwise the events run and then `last_synced_block` is set to
this transaction's block number and saved. -/
def processTx (cfg : Config) (db : DB) (tx : Tx) : DB × Option String :=
  if tx.status != 1 then (db, none)
  else
    match runEvents cfg tx.hash tx.blockNumber tx.events db with
    | (db1, none) => ({ db1 with last_synced_block := tx.blockNumber }, none)
    | (db1, some msg) => (db1, some msg)

/-- The body of the `sync_blockchain_events` task on an already-fetched
transaction list (the Routescan response, ascending by block, filtered by
`startblock`).  An exception aborts the run with the rows written so far. -/
def sync_blockchain_events (cfg : Config) (db : DB) : List Tx → DB × Option String
  | [] => (db, none)
  | tx :: rest =>
      match processTx cfg db tx with
      | (db1, none) => sync_blockchain_events cfg db1 rest
      | (db1, some msg) => (db1, some msg)

/-- The `startblock` request parameter of the Routescan query
(tasks.py line 45): `state.last_synced_block + 1`. -/
def startblockParam (db : DB) : ℕ := db.last_synced_block + 1

/-- The command `Command.handle` of `management/commands/sync_chain.py`: declares a
`--reset` option in `add_arguments`, then runs `sync_blockchain_events`
without ever reading `options`, so `reset` is accepted but unused. -/
def sync_chain_handle (reset : Bool) (cfg : Config) (db : DB) (txs : List Tx) :
    DB × Option String :=
  sync_blockchain_events cfg db txs

/-! ## The yield distribution view (`spv_admin/app/views.py`) -/

/-- The property `Loan.monthly_interest` (models.py lines 103 to 105). -/
def monthly_interest (loan : LoanRow) : ℚ :=
  loan.principal * (loan.annual_interest_rate / 100) / (loan.term_months : ℚ)

/-- The per-position share of `spv_distribute_payment` (views.py line 338):
divide the slices by the total first, then multiply by the amount — and no
quantization anywhere on this path. -/
def spv_share (slices total totalAmount : ℚ) : ℚ :=
  slices / total * totalAmount

/-- Python's `int(...)` on a decimal: truncation toward zero. -/
def pyIntTrunc (q : ℚ) : ℤ :=
  if q < 0 then -ratFloor (-q) else ratFloor q

/-- The value `amount_in_units` (views.py line 305): `int(total_interest * 1000000)`. -/
def amount_in_units (loan : LoanRow) : ℤ :=
  pyIntTrunc (monthly_interest loan * 1000000)

/-- The local phase of `spv_distribute_payment` (views.py lines 335 to 351):
for every position, credit `balance_due` and `create` one `CashflowHistory`
row with `tx_hash` set to the chain transaction hash.  `tx_hash` is a
unique column, so a second `create` with the same hash raises
`IntegrityError`, which aborts the whole atomic block. -/
def spvCreateCashflows (txh : String) (loan : LoanRow) (ti : ℚ) :
    List Position → DB → Except String DB
  | [], db => .ok db
  | pos :: rest, db =>
      let share := spv_share pos.slices_owned (loan.total_slices : ℚ) ti
      let db1 := { db with positions :=
        (updateFirst (fun p => p.investor == pos.investor && p.loan == pos.loan)
          (fun p => { p with balance_due := p.balance_due + share }) db.positions) }
      if db1.cashflows.any (fun c => c.tx_hash == txh) then
        .error "UNIQUE constraint failed: app_cashflowhistory.tx_hash"
      else
        spvCreateCashflows txh loan ti rest
          { db1 with cashflows := db1.cashflows ++
            [{ loan := loan.loan_id, investor := pos.investor, amount := share,
               tx_hash := txh, description :=
                 "Monthly interest distribution for " ++ loan.loan_id }] }

/-- The view `spv_distribute_payment` (views.py lines 300 to 361).  The on-chain
deposit (`deposit_dividends_onchain` or the tranche variant) happens first
and is an input: `.ok hash` for a mined receipt, `.error reason` for a
raised exception.  Only if it succeeded does the atomic local phase run;
any exception is caught and reported via `messages.error` as
`f"Distribution Failed: {str(e)}"`, returned here as `some message`
(`none` means the success message was shown). -/
def spv_distribute_payment (loan : LoanRow) (chain : Except String String)
    (db : DB) : DB × Option String :=
  let positions := db.positions.filter (fun p => p.loan == loan.loan_id)
  let total_interest := monthly_interest loan
  match chain with
  | .error e => (db, some ("Distribution Failed: " ++ e))
  | .ok txh =>
      match spvCreateCashflows txh loan total_interest positions db with
      | .ok db1 => (db1, none)
      | .error e => (db, some ("Distribution Failed: " ++ e))


/-! ## Derived measures and concrete test fixtures -/

/-- The sum of `slices_owned` over all `InvestorPosition` rows. -/
def slicesTotal (db : DB) : ℚ :=
  (db.positions.map (fun p => p.slices_owned)).sum

/-- How much one event adds to the total of `slices_owned`: the minted value
for a mint to a non-admin recipient, zero otherwise. -/
def mintedDelta (cfg : Config) : Event → ℚ
  | .transferSingle _ fr to_ v =>
      if fr = zeroAddress then
        if cfg.admin_addresses.contains to_ then 0 else (v : ℚ)
      else 0
  | _ => 0

/-- The total minted to non-admin recipients over a list of events. -/
def mintedTotal (cfg : Config) (evs : List Event) : ℚ :=
  (evs.map (mintedDelta cfg)).sum

/-- The error message of an `Except` result, if any. -/
def exceptError {α : Type} (r : Except String α) : Option String :=
  match r with
  | .error e => some e
  | .ok _ => none

/-- A concrete configuration: no admin addresses, and token metadata naming
loan `L1` with 100 total slices. -/
def testCfg : Config :=
  { admin_addresses := [], master_address := "0xMASTER",
    tokenURI := fun _ => "ipfs://cid1",
    fetchMeta := fun _ =>
      { name := "Loan L1", description := some "A Loan", principal := 10000,
        apr := 10, unit_price_usdc := 100, total_slices := 100, term_months := 12,
        borrower := "B", maturity_date := "2026-01-01", monthly_payment := 850,
        metadata_hash := "deadbeef" } }

/-- An empty ledger. -/
def dbEmpty : DB :=
  { loans := [], investors := [], positions := [], cashflows := [],
    last_synced_block := 0 }

/-- A tokenized loan with token id 7 and 100 total slices. -/
def loanL7 : LoanRow :=
  { blankLoan with
    loan_id := "L7", token_id := some 7, total_slices := 100, tokenized := true }

/-- Loan `loanL7` held 40/60 by investors `0xa` and `0xb`, no accrued balances. -/
def dbTwoPos : DB :=
  { loans := [loanL7],
    investors := ["0xa", "0xb"],
    positions := [{ investor := "0xa", loan := "L7", slices_owned := 40, balance_due := 0 },
                  { investor := "0xb", loan := "L7", slices_owned := 60, balance_due := 0 }],
    cashflows := [], last_synced_block := 0 }

/-- Loan `loanL7` with a single holder `0xa` owning 10 slices. -/
def dbSender10 : DB :=
  { loans := [loanL7],
    investors := ["0xa"],
    positions := [{ investor := "0xa", loan := "L7", slices_owned := 10, balance_due := 0 }],
    cashflows := [], last_synced_block := 0 }

/-- A ledger whose sync cursor sits at block 500. -/
def db500 : DB := { dbEmpty with last_synced_block := 500 }

/-- A successful empty transaction at block 501. -/
def tx501 : Tx := { hash := "0x1", blockNumber := 501, status := 1, events := [] }

/-- A successful empty transaction at block 502. -/
def tx502 : Tx := { hash := "0x2", blockNumber := 502, status := 1, events := [] }

/-- A concrete loan for the metadata-codec claims. -/
def loanX : LoanRow :=
  { loan_id := "L1", title := "Test Loan", borrower := "Acme Corp",
    principal := 10000, annual_interest_rate := 10, term_months := 12,
    start_date := "2025-01-01", maturity_date := "2026-01-01",
    monthly_payment := 850, status := "performing", token_contract := "",
    token_id := none, total_slices := 100, unit_price_usdc := 100,
    metadata_cid := none, metadata_hash := none, tokenized := false }

/-- Loan `loanX` with one canonicalized attribute (the principal) changed. -/
def loanY : LoanRow := { loanX with principal := 10001 }

/-- The mint-then-dividend scenario of the spec: 40 slices to `0xa`,
60 to `0xb`, then a deposit of 1,000,000 micro-USDC. -/
def endToEndEvents : List Event :=
  [.transferSingle 7 zeroAddress "0xa" 40,
   .transferSingle 7 zeroAddress "0xb" 60,
   .dividendsDeposited 7 1000000]

/-- The ledger after running `endToEndEvents` on an empty database. -/
def endToEndDb : DB :=
  (runEvents testCfg "0xh" 1 endToEndEvents dbEmpty).1


/-! ### Precomputed SHA-256 blocks and chain states for the two fixture
documents, so that each compression step is checked as its own small lemma. -/

/-- The padded 64-byte blocks of the serialized loanX document. -/
def shaBlocksX : List (List ℕ) :=
  [[123, 34, 97, 116, 116, 114, 105, 98, 117, 116, 101, 115, 34, 58, 91, 123, 34, 100, 105, 115, 112, 108, 97, 121, 95, 116, 121, 112, 101, 34, 58, 34, 110, 117, 109, 98, 101, 114, 34, 44, 34, 116, 114, 97, 105, 116, 95, 116, 121, 112, 101, 34, 58, 34, 80, 114, 105, 110, 99, 105, 112, 97, 108, 34],
   [44, 34, 118, 97, 108, 117, 101, 34, 58, 34, 49, 48, 48, 48, 48, 46, 48, 48, 34, 125, 44, 123, 34, 100, 105, 115, 112, 108, 97, 121, 95, 116, 121, 112, 101, 34, 58, 34, 112, 101, 114, 99, 101, 110, 116, 97, 103, 101, 34, 44, 34, 116, 114, 97, 105, 116, 95, 116, 121, 112, 101, 34, 58, 34],
   [65, 80, 82, 34, 44, 34, 118, 97, 108, 117, 101, 34, 58, 34, 49, 48, 46, 48, 48, 34, 125, 44, 123, 34, 100, 105, 115, 112, 108, 97, 121, 95, 116, 121, 112, 101, 34, 58, 34, 110, 117, 109, 98, 101, 114, 34, 44, 34, 116, 114, 97, 105, 116, 95, 116, 121, 112, 101, 34, 58, 34, 85, 110, 105],
   [116, 32, 80, 114, 105, 99, 101, 32, 85, 83, 68, 67, 34, 44, 34, 118, 97, 108, 117, 101, 34, 58, 34, 49, 48, 48, 46, 48, 48, 34, 125, 44, 123, 34, 100, 105, 115, 112, 108, 97, 121, 95, 116, 121, 112, 101, 34, 58, 34, 110, 117, 109, 98, 101, 114, 34, 44, 34, 116, 114, 97, 105, 116, 95],
   [116, 121, 112, 101, 34, 58, 34, 84, 101, 114, 109, 32, 77, 111, 110, 116, 104, 115, 34, 44, 34, 118, 97, 108, 117, 101, 34, 58, 49, 50, 125, 44, 123, 34, 100, 105, 115, 112, 108, 97, 121, 95, 116, 121, 112, 101, 34, 58, 34, 110, 117, 109, 98, 101, 114, 34, 44, 34, 116, 114, 97, 105, 116, 95],
   [116, 121, 112, 101, 34, 58, 34, 84, 111, 116, 97, 108, 32, 83, 108, 105, 99, 101, 115, 34, 44, 34, 118, 97, 108, 117, 101, 34, 58, 49, 48, 48, 125, 44, 123, 34, 100, 105, 115, 112, 108, 97, 121, 95, 116, 121, 112, 101, 34, 58, 34, 100, 97, 116, 101, 34, 44, 34, 116, 114, 97, 105, 116, 95],
   [116, 121, 112, 101, 34, 58, 34, 77, 97, 116, 117, 114, 105, 116, 121, 32, 68, 97, 116, 101, 34, 44, 34, 118, 97, 108, 117, 101, 34, 58, 34, 50, 48, 50, 54, 45, 48, 49, 45, 48, 49, 34, 125, 44, 123, 34, 100, 105, 115, 112, 108, 97, 121, 95, 116, 121, 112, 101, 34, 58, 34, 100, 97, 116],
   [101, 34, 44, 34, 116, 114, 97, 105, 116, 95, 116, 121, 112, 101, 34, 58, 34, 83, 116, 97, 114, 116, 32, 68, 97, 116, 101, 34, 44, 34, 118, 97, 108, 117, 101, 34, 58, 34, 50, 48, 50, 53, 45, 48, 49, 45, 48, 49, 34, 125, 44, 123, 34, 100, 105, 115, 112, 108, 97, 121, 95, 116, 121, 112],
   [101, 34, 58, 34, 110, 117, 109, 98, 101, 114, 34, 44, 34, 116, 114, 97, 105, 116, 95, 116, 121, 112, 101, 34, 58, 34, 77, 111, 110, 116, 104, 108, 121, 32, 80, 97, 121, 109, 101, 110, 116, 34, 44, 34, 118, 97, 108, 117, 101, 34, 58, 34, 56, 53, 48, 46, 48, 48, 34, 125, 44, 123, 34, 100],
   [105, 115, 112, 108, 97, 121, 95, 116, 121, 112, 101, 34, 58, 34, 115, 116, 114, 105, 110, 103, 34, 44, 34, 116, 114, 97, 105, 116, 95, 116, 121, 112, 101, 34, 58, 34, 66, 111, 114, 114, 111, 119, 101, 114, 34, 44, 34, 118, 97, 108, 117, 101, 34, 58, 34, 65, 99, 109, 101, 32, 67, 111, 114, 112],
   [34, 125, 44, 123, 34, 116, 114, 97, 105, 116, 95, 116, 121, 112, 101, 34, 58, 34, 65, 115, 115, 101, 116, 32, 67, 108, 97, 115, 115, 34, 44, 34, 118, 97, 108, 117, 101, 34, 58, 34, 80, 114, 105, 118, 97, 116, 101, 32, 67, 114, 101, 100, 105, 116, 34, 125, 93, 44, 34, 100, 101, 115, 99, 114],
   [105, 112, 116, 105, 111, 110, 34, 58, 34, 80, 114, 105, 118, 97, 116, 101, 32, 67, 114, 101, 100, 105, 116, 32, 82, 87, 65, 32, 45, 32, 36, 49, 48, 48, 48, 48, 46, 48, 48, 32, 84, 101, 115, 116, 32, 76, 111, 97, 110, 34, 44, 34, 101, 120, 116, 101, 114, 110, 97, 108, 95, 117, 114, 108],
   [34, 58, 34, 104, 116, 116, 112, 115, 58, 47, 47, 101, 120, 97, 109, 112, 108, 101, 46, 99, 111, 109, 47, 108, 111, 97, 110, 47, 76, 49, 34, 44, 34, 105, 109, 97, 103, 101, 34, 58, 34, 105, 112, 102, 115, 58, 47, 47, 81, 109, 89, 111, 117, 114, 80, 114, 111, 112, 101, 114, 116, 121, 73, 109],
   [97, 103, 101, 72, 97, 115, 104, 34, 44, 34, 110, 97, 109, 101, 34, 58, 34, 76, 111, 97, 110, 32, 76, 49, 34, 125, 128, 0, 0, 0, 0, 0, 0, 0, 0, 0, 0, 0, 0, 0, 0, 0, 0, 0, 0, 0, 0, 0, 0, 0, 0, 0, 0, 0, 0, 0, 0, 0, 0, 0, 0, 0, 26, 208]]

/-- SHA-256 chain state 0 for the loanX document. -/
def shaStateX0 : List ℕ := [1779033703, 3144134277, 1013904242, 2773480762, 1359893119, 2600822924, 528734635, 1541459225]

/-- SHA-256 chain state 1 for the loanX document. -/
def shaStateX1 : List ℕ := [15809796, 3410709642, 2400153374, 290541710, 4159494474, 1587431702, 91569805, 2493263299]

/-- SHA-256 chain state 2 for the loanX document. -/
def shaStateX2 : List ℕ := [893272528, 3591225530, 1655961165, 3866110458, 2877834047, 3133013646, 1805710856, 3645349522]

/-- SHA-256 chain state 3 for the loanX document. -/
def shaStateX3 : List ℕ := [2872478183, 1848172397, 3708272453, 458565821, 445419304, 2304214375, 876776864, 3626026530]

/-- SHA-256 chain state 4 for the loanX document. -/
def shaStateX4 : List ℕ := [1658135517, 103067005, 3719278763, 3215817975, 472948321, 837078621, 1548694264, 3401007903]

/-- SHA-256 chain state 5 for the loanX document. -/
def shaStateX5 : List ℕ := [784926310, 1876355851, 3836174100, 3718730007, 3037796816, 3037238215, 1237386492, 4126047986]

/-- SHA-256 chain state 6 for the loanX document. -/
def shaStateX6 : List ℕ := [1426204941, 4036767419, 2599538050, 988586014, 1877889002, 2490229012, 3739280142, 4171164266]

/-- SHA-256 chain state 7 for the loanX document. -/
def shaStateX7 : List ℕ := [76926935, 3208057164, 710864976, 3035112342, 631605286, 3911872423, 1388547372, 1098062418]

/-- SHA-256 chain state 8 for the loanX document. -/
def shaStateX8 : List ℕ := [3951657015, 948462568, 2737446166, 1383598582, 2844842385, 1980242550, 1626368862, 895464872]

/-- SHA-256 chain state 9 for the loanX document. -/
def shaStateX9 : List ℕ := [640694534, 3373625443, 2147016508, 502900914, 3820105250, 2977455318, 4229449470, 1681898870]

/-- SHA-256 chain state 10 for the loanX document. -/
def shaStateX10 : List ℕ := [2403203141, 567021090, 3731774558, 337064913, 841766702, 3882968187, 322424443, 1975351444]

/-- SHA-256 chain state 11 for the loanX document. -/
def shaStateX11 : List ℕ := [1133743985, 1837715410, 194831645, 2648038023, 3742894639, 3005644380, 870505920, 1607859512]

/-- SHA-256 chain state 12 for the loanX document. -/
def shaStateX12 : List ℕ := [343466584, 610699131, 821229056, 2234458701, 1914488902, 3788535444, 1533990073, 1653089651]

/-- SHA-256 chain state 13 for the loanX document. -/
def shaStateX13 : List ℕ := [2886228813, 3102935831, 268198657, 4216078244, 3506406959, 3071031492, 1614845230, 3415025789]

/-- SHA-256 chain state 14 for the loanX document. -/
def shaStateX14 : List ℕ := [3964207202, 3041300133, 1427260919, 2680455362, 908220340, 3616065406, 3801397003, 1525894409]

/-- The padded 64-byte blocks of the serialized loanY document. -/
def shaBlocksY : List (List ℕ) :=
  [[123, 34, 97, 116, 116, 114, 105, 98, 117, 116, 101, 115, 34, 58, 91, 123, 34, 100, 105, 115, 112, 108, 97, 121, 95, 116, 121, 112, 101, 34, 58, 34, 110, 117, 109, 98, 101, 114, 34, 44, 34, 116, 114, 97, 105, 116, 95, 116, 121, 112, 101, 34, 58, 34, 80, 114, 105, 110, 99, 105, 112, 97, 108, 34],
   [44, 34, 118, 97, 108, 117, 101, 34, 58, 34, 49, 48, 48, 48, 49, 46, 48, 48, 34, 125, 44, 123, 34, 100, 105, 115, 112, 108, 97, 121, 95, 116, 121, 112, 101, 34, 58, 34, 112, 101, 114, 99, 101, 110, 116, 97, 103, 101, 34, 44, 34, 116, 114, 97, 105, 116, 95, 116, 121, 112, 101, 34, 58, 34],
   [65, 80, 82, 34, 44, 34, 118, 97, 108, 117, 101, 34, 58, 34, 49, 48, 46, 48, 48, 34, 125, 44, 123, 34, 100, 105, 115, 112, 108, 97, 121, 95, 116, 121, 112, 101, 34, 58, 34, 110, 117, 109, 98, 101, 114, 34, 44, 34, 116, 114, 97, 105, 116, 95, 116, 121, 112, 101, 34, 58, 34, 85, 110, 105],
   [116, 32, 80, 114, 105, 99, 101, 32, 85, 83, 68, 67, 34, 44, 34, 118, 97, 108, 117, 101, 34, 58, 34, 49, 48, 48, 46, 48, 48, 34, 125, 44, 123, 34, 100, 105, 115, 112, 108, 97, 121, 95, 116, 121, 112, 101, 34, 58, 34, 110, 117, 109, 98, 101, 114, 34, 44, 34, 116, 114, 97, 105, 116, 95],
   [116, 121, 112, 101, 34, 58, 34, 84, 101, 114, 109, 32, 77, 111, 110, 116, 104, 115, 34, 44, 34, 118, 97, 108, 117, 101, 34, 58, 49, 50, 125, 44, 123, 34, 100, 105, 115, 112, 108, 97, 121, 95, 116, 121, 112, 101, 34, 58, 34, 110, 117, 109, 98, 101, 114, 34, 44, 34, 116, 114, 97, 105, 116, 95],
   [116, 121, 112, 101, 34, 58, 34, 84, 111, 116, 97, 108, 32, 83, 108, 105, 99, 101, 115, 34, 44, 34, 118, 97, 108, 117, 101, 34, 58, 49, 48, 48, 125, 44, 123, 34, 100, 105, 115, 112, 108, 97, 121, 95, 116, 121, 112, 101, 34, 58, 34, 100, 97, 116, 101, 34, 44, 34, 116, 114, 97, 105, 116, 95],
   [116, 121, 112, 101, 34, 58, 34, 77, 97, 116, 117, 114, 105, 116, 121, 32, 68, 97, 116, 101, 34, 44, 34, 118, 97, 108, 117, 101, 34, 58, 34, 50, 48, 50, 54, 45, 48, 49, 45, 48, 49, 34, 125, 44, 123, 34, 100, 105, 115, 112, 108, 97, 121, 95, 116, 121, 112, 101, 34, 58, 34, 100, 97, 116],
   [101, 34, 44, 34, 116, 114, 97, 105, 116, 95, 116, 121, 112, 101, 34, 58, 34, 83, 116, 97, 114, 116, 32, 68, 97, 116, 101, 34, 44, 34, 118, 97, 108, 117, 101, 34, 58, 34, 50, 48, 50, 53, 45, 48, 49, 45, 48, 49, 34, 125, 44, 123, 34, 100, 105, 115, 112, 108, 97, 121, 95, 116, 121, 112],
   [101, 34, 58, 34, 110, 117, 109, 98, 101, 114, 34, 44, 34, 116, 114, 97, 105, 116, 95, 116, 121, 112, 101, 34, 58, 34, 77, 111, 110, 116, 104, 108, 121, 32, 80, 97, 121, 109, 101, 110, 116, 34, 44, 34, 118, 97, 108, 117, 101, 34, 58, 34, 56, 53, 48, 46, 48, 48, 34, 125, 44, 123, 34, 100],
   [105, 115, 112, 108, 97, 121, 95, 116, 121, 112, 101, 34, 58, 34, 115, 116, 114, 105, 110, 103, 34, 44, 34, 116, 114, 97, 105, 116, 95, 116, 121, 112, 101, 34, 58, 34, 66, 111, 114, 114, 111, 119, 101, 114, 34, 44, 34, 118, 97, 108, 117, 101, 34, 58, 34, 65, 99, 109, 101, 32, 67, 111, 114, 112],
   [34, 125, 44, 123, 34, 116, 114, 97, 105, 116, 95, 116, 121, 112, 101, 34, 58, 34, 65, 115, 115, 101, 116, 32, 67, 108, 97, 115, 115, 34, 44, 34, 118, 97, 108, 117, 101, 34, 58, 34, 80, 114, 105, 118, 97, 116, 101, 32, 67, 114, 101, 100, 105, 116, 34, 125, 93, 44, 34, 100, 101, 115, 99, 114],
   [105, 112, 116, 105, 111, 110, 34, 58, 34, 80, 114, 105, 118, 97, 116, 101, 32, 67, 114, 101, 100, 105, 116, 32, 82, 87, 65, 32, 45, 32, 36, 49, 48, 48, 48, 49, 46, 48, 48, 32, 84, 101, 115, 116, 32, 76, 111, 97, 110, 34, 44, 34, 101, 120, 116, 101, 114, 110, 97, 108, 95, 117, 114, 108],
   [34, 58, 34, 104, 116, 116, 112, 115, 58, 47, 47, 101, 120, 97, 109, 112, 108, 101, 46, 99, 111, 109, 47, 108, 111, 97, 110, 47, 76, 49, 34, 44, 34, 105, 109, 97, 103, 101, 34, 58, 34, 105, 112, 102, 115, 58, 47, 47, 81, 109, 89, 111, 117, 114, 80, 114, 111, 112, 101, 114, 116, 121, 73, 109],
   [97, 103, 101, 72, 97, 115, 104, 34, 44, 34, 110, 97, 109, 101, 34, 58, 34, 76, 111, 97, 110, 32, 76, 49, 34, 125, 128, 0, 0, 0, 0, 0, 0, 0, 0, 0, 0, 0, 0, 0, 0, 0, 0, 0, 0, 0, 0, 0, 0, 0, 0, 0, 0, 0, 0, 0, 0, 0, 0, 0, 0, 0, 26, 208]]

/-- SHA-256 chain state 0 for the loanY document. -/
def shaStateY0 : List ℕ := [1779033703, 3144134277, 1013904242, 2773480762, 1359893119, 2600822924, 528734635, 1541459225]

/-- SHA-256 chain state 1 for the loanY document. -/
def shaStateY1 : List ℕ := [15809796, 3410709642, 2400153374, 290541710, 4159494474, 1587431702, 91569805, 2493263299]

/-- SHA-256 chain state 2 for the loanY document. -/
def shaStateY2 : List ℕ := [3450466453, 3559346589, 2426030765, 2660892359, 82281662, 4092701313, 3040556937, 963114621]

/-- SHA-256 chain state 3 for the loanY document. -/
def shaStateY3 : List ℕ := [863462539, 2438082103, 2182948014, 3163894318, 3316611490, 3590657076, 2677432596, 2741772600]

/-- SHA-256 chain state 4 for the loanY document. -/
def shaStateY4 : List ℕ := [1351437170, 47797306, 3619686559, 1692817952, 2017100245, 3859648181, 2316169412, 2917544520]

/-- SHA-256 chain state 5 for the loanY document. -/
def shaStateY5 : List ℕ := [1200651611, 104581451, 2472589246, 1638291305, 1065331215, 2515140058, 19264616, 1010799572]

/-- SHA-256 chain state 6 for the loanY document. -/
def shaStateY6 : List ℕ := [2801167116, 3281410916, 2159908460, 1230531684, 3235443116, 1204828292, 3945501955, 1280372061]

/-- SHA-256 chain state 7 for the loanY document. -/
def shaStateY7 : List ℕ := [1489738349, 4101104605, 1352144849, 2301337660, 1897134306, 2229200396, 661901180, 1957892875]

/-- SHA-256 chain state 8 for the loanY document. -/
def shaStateY8 : List ℕ := [2796971171, 1748542614, 3412993165, 2345146526, 3146377372, 2989444008, 502640701, 1323301025]

/-- SHA-256 chain state 9 for the loanY document. -/
def shaStateY9 : List ℕ := [744965392, 2798155442, 2692203194, 3064185513, 3245686602, 3186279130, 4246590194, 1319174130]

/-- SHA-256 chain state 10 for the loanY document. -/
def shaStateY10 : List ℕ := [2416643862, 250606101, 1334918232, 488367519, 1671800931, 834592770, 4122276254, 1711589714]

/-- SHA-256 chain state 11 for the loanY document. -/
def shaStateY11 : List ℕ := [1852227175, 3679352830, 3172913145, 2895120455, 4002510255, 2360442753, 3952614093, 2261462081]

/-- SHA-256 chain state 12 for the loanY document. -/
def shaStateY12 : List ℕ := [775900255, 1339030671, 834910450, 2433662997, 3916402653, 3339527564, 2967020556, 3812639760]

/-- SHA-256 chain state 13 for the loanY document. -/
def shaStateY13 : List ℕ := [1214463510, 2577503745, 2550134360, 3498416981, 1367373007, 2290100310, 172784807, 3933961790]

/-- SHA-256 chain state 14 for the loanY document. -/
def shaStateY14 : List ℕ := [1941723724, 2352187273, 2467498550, 809597528, 3057747927, 1439757501, 2533348184, 3939722615]

/-! ## Helper lemmas -/

theorem sum_map_updateFirst {α : Type} (g : α → ℚ) (p : α → Bool) (f : α → α) :
    ∀ l : List α, ((updateFirst p f l).map g).sum =
      (l.map g).sum + (match l.find? p with
        | some x => g (f x) - g x
        | none => 0) := by
  intro l
  induction l with
  | nil => simp [updateFirst]
  | cons x xs ih =>
      by_cases hx : p x
      · simp [updateFirst, hx, List.find?_cons_of_pos _ hx]
        ring
      · simp [updateFirst, hx, List.find?_cons_of_neg _ hx, ih]
        cases hfind : xs.find? p <;> simp [hfind] <;> ring

theorem posAdd_sum (who lid : String) (v : ℕ) (ps : List Position) :
    ((posAdd who lid v ps).map (fun p => p.slices_owned)).sum =
      (ps.map (fun p => p.slices_owned)).sum + (v : ℚ) := by
  unfold posAdd
  cases hfind : ps.find? (fun p => p.investor == who && p.loan == lid) with
  | none => simp
  | some x => simp [sum_map_updateFirst, hfind]

theorem divFold_cursor (txh : String) (blk : ℕ) (loan : LoanRow) (amt : ℕ) :
    ∀ ps db, (divFold txh blk loan amt ps db).last_synced_block = db.last_synced_block := by
  intro ps
  induction ps with
  | nil => intro db; rfl
  | cons pos rest ih =>
      intro db
      unfold divFold
      cases hfind : db.cashflows.find? (fun c => c.tx_hash == txh) <;> simp [hfind, ih]

theorem divFold_slices (txh : String) (blk : ℕ) (loan : LoanRow) (amt : ℕ) :
    ∀ ps db, slicesTotal (divFold txh blk loan amt ps db) = slicesTotal db := by
  intro ps
  induction ps with
  | nil => intro db; rfl
  | cons pos rest ih =>
      intro db
      unfold divFold
      cases hfind : db.cashflows.find? (fun c => c.tx_hash == txh) with
      | none =>
          simp only [hfind]
          rw [ih]
          simp only [slicesTotal, sum_map_updateFirst]
          cases h2 : db.positions.find?
              (fun p => p.investor == pos.investor && p.loan == pos.loan) <;>
            simp [h2]
      | some c0 =>
          simp only [hfind]
          rw [ih]
          rfl

theorem processEvent_cursor (cfg : Config) (txh : String) (blk : ℕ) (db : DB) (e : Event)
    (db' : DB) (hok : processEvent cfg txh blk db e = .ok db') :
    db'.last_synced_block = db.last_synced_block := by
  cases e with
  | tokenCreated id fp =>
      simp only [processEvent] at hok
      injection hok with h; subst h; rfl
  | transferSingle id fr to_ v =>
      simp only [processEvent] at hok
      split at hok
      · split at hok <;> (injection hok with h; subst h; rfl)
      · split at hok
        · exact absurd hok (by simp)
        · split at hok
          · exact absurd hok (by simp)
          · injection hok with h; subst h; rfl
  | dividendsDeposited tid amt =>
      simp only [processEvent] at hok
      split at hok
      · injection hok with h; subst h; rfl
      · split at hok
        · injection hok with h; subst h; rfl
        · injection hok with h; subst h; exact divFold_cursor _ _ _ _ _ _

theorem runEvents_cursor (cfg : Config) (txh : String) (blk : ℕ) :
    ∀ (evs : List Event) (db : DB),
      ((runEvents cfg txh blk evs db).1).last_synced_block = db.last_synced_block := by
  intro evs
  induction evs with
  | nil => intro db; rfl
  | cons e es ih =>
      intro db
      unfold runEvents
      cases hpe : processEvent cfg txh blk db e with
      | ok db1 =>
          simp only [hpe]
          rw [ih db1, processEvent_cursor cfg txh blk db e db1 hpe]
      | error m => simp [hpe]

theorem processEvent_slices (cfg : Config) (txh : String) (blk : ℕ) (db : DB) (e : Event)
    (db' : DB) (hok : processEvent cfg txh blk db e = .ok db') :
    slicesTotal db' = slicesTotal db + mintedDelta cfg e := by
  cases e with
  | tokenCreated id fp =>
      simp only [processEvent] at hok
      injection hok with h; subst h
      simp [slicesTotal, mintedDelta]
  | transferSingle id fr to_ v =>
      simp only [processEvent] at hok
      split at hok
      case isTrue h1 =>
        split at hok
        case isTrue h2 =>
          injection hok with h; subst h
          have h2m : to_ ∈ cfg.admin_addresses := by simpa using h2
          simp [slicesTotal, mintedDelta, h1, h2m]
        case isFalse h2 =>
          injection hok with h; subst h
          have h2m : to_ ∉ cfg.admin_addresses := by simpa using h2
          simp [slicesTotal, mintedDelta, h1, h2m, posAdd_sum]
      case isFalse h1 =>
        split at hok
        · exact absurd hok (by simp)
        · split at hok
          · exact absurd hok (by simp)
          · rename_i loan hloan sp hsp
            injection hok with h; subst h
            simp only [slicesTotal, mintedDelta, if_neg h1, posAdd_sum,
              sum_map_updateFirst, hsp]
            ring
  | dividendsDeposited tid amt =>
      simp only [processEvent] at hok
      split at hok
      · injection hok with h; subst h; simp [mintedDelta]
      · split at hok
        · injection hok with h; subst h; simp [mintedDelta]
        · injection hok with h; subst h
          simp [mintedDelta, divFold_slices]

theorem sync_append (cfg : Config) :
    ∀ (l1 l2 : List Tx) (db : DB),
      sync_blockchain_events cfg db (l1 ++ l2) =
        match sync_blockchain_events cfg db l1 with
        | (db1, none) => sync_blockchain_events cfg db1 l2
        | (db1, some m) => (db1, some m) := by
  intro l1
  induction l1 with
  | nil => intro l2 db; rfl
  | cons t ts ih =>
      intro l2 db
      have hstep : ∀ (db : DB) (rest : List Tx),
          sync_blockchain_events cfg db (t :: rest) =
            (match processTx cfg db t with
             | (db1, none) => sync_blockchain_events cfg db1 rest
             | (db1, some m) => (db1, some m)) := fun _ _ => rfl
      simp only [List.cons_append, hstep]
      cases hpt : processTx cfg db t with
      | mk db1 o =>
          cases o with
          | none => simp only [hpt]; exact ih l2 db1
          | some m => simp only [hpt]

theorem processTx_cursor (cfg : Config) (db : DB) (tx : Tx) :
    ((processTx cfg db tx).1).last_synced_block = db.last_synced_block ∨
      ((processTx cfg db tx).1).last_synced_block = tx.blockNumber := by
  unfold processTx
  split
  · exact Or.inl rfl
  · cases hrun : runEvents cfg tx.hash tx.blockNumber tx.events db with
    | mk db1 o =>
        cases o with
        | none => exact Or.inr rfl
        | some m =>
            left
            have := runEvents_cursor cfg tx.hash tx.blockNumber tx.events db
            rw [hrun] at this
            exact this

theorem sync_run_inv (cfg : Config) :
    ∀ (txs : List Tx) (db : DB),
      (∀ t ∈ txs, db.last_synced_block ≤ t.blockNumber) →
      txs.Pairwise (fun a b => a.blockNumber ≤ b.blockNumber) →
      db.last_synced_block ≤ ((sync_blockchain_events cfg db txs).1).last_synced_block ∧
        (((sync_blockchain_events cfg db txs).1).last_synced_block = db.last_synced_block ∨
          ∃ t ∈ txs, ((sync_blockchain_events cfg db txs).1).last_synced_block =
            t.blockNumber) := by
  intro txs
  induction txs with
  | nil => intro db _ _; exact ⟨le_refl _, Or.inl rfl⟩
  | cons t ts ih =>
      intro db hstart hpw
      obtain ⟨hhead, htail⟩ := List.pairwise_cons.mp hpw
      unfold sync_blockchain_events
      cases hpt : processTx cfg db t with
      | mk db1 o =>
          have hcur := processTx_cursor cfg db t
          rw [hpt] at hcur
          have hdb1 : db.last_synced_block ≤ db1.last_synced_block := by
            rcases hcur with h | h
            · exact le_of_eq h.symm
            · rw [h]; exact hstart t (List.mem_cons_self t ts)
          cases o with
          | some m =>
              simp only
              refine ⟨hdb1, ?_⟩
              rcases hcur with h | h
              · exact Or.inl h
              · exact Or.inr ⟨t, List.mem_cons_self t ts, h⟩
          | none =>
              simp only
              have hstart1 : ∀ t' ∈ ts, db1.last_synced_block ≤ t'.blockNumber := by
                intro t' ht'
                rcases hcur with h | h
                · rw [h]; exact hstart t' (List.mem_cons_of_mem _ ht')
                · rw [h]; exact hhead t' ht'
              obtain ⟨ihle, ihdisj⟩ := ih db1 hstart1 htail
              refine ⟨le_trans hdb1 ihle, ?_⟩
              rcases ihdisj with h | ⟨t', ht', h⟩
              · rw [h]
                rcases hcur with h2 | h2
                · exact Or.inl h2
                · exact Or.inr ⟨t, List.mem_cons_self t ts, h2⟩
              · exact Or.inr ⟨t', List.mem_cons_of_mem _ ht', h⟩

theorem sync_take_mono (cfg : Config) (db : DB) (txs : List Tx)
    (hstart : ∀ t ∈ txs, db.last_synced_block ≤ t.blockNumber)
    (hpw : txs.Pairwise (fun a b => a.blockNumber ≤ b.blockNumber)) (n : ℕ) :
    ((sync_blockchain_events cfg db (txs.take n)).1).last_synced_block ≤
      ((sync_blockchain_events cfg db (txs.take (n + 1))).1).last_synced_block := by
  cases hget : txs[n]? with
  | none => rw [List.take_succ, hget]; simp
  | some t =>
      rw [List.take_succ, hget]
      simp only [Option.toList_some]
      rw [sync_append]
      cases hrun : sync_blockchain_events cfg db (txs.take n) with
      | mk s o =>
          cases o with
          | some m => simp only; exact le_refl _
          | none =>
              simp only
              have hinv := sync_run_inv cfg (txs.take n) db
                (fun t' ht' => hstart t' (List.take_subset n txs ht'))
                (hpw.sublist (List.take_sublist n txs))
              rw [hrun] at hinv
              have hmem : t ∈ txs := by
                obtain ⟨hlt, hEq⟩ := List.getElem?_eq_some.mp hget
                exact hEq ▸ List.getElem_mem hlt
              have hrel : ∀ a ∈ txs.take n, a.blockNumber ≤ t.blockNumber := by
                have hp2 : (txs.take (n + 1)).Pairwise
                    (fun a b => a.blockNumber ≤ b.blockNumber) :=
                  hpw.sublist (List.take_sublist (n + 1) txs)
                rw [List.take_succ, hget] at hp2
                simp only [Option.toList_some] at hp2
                obtain ⟨_, _, hr⟩ := List.pairwise_append.mp hp2
                intro a ha
                exact hr a ha t (List.mem_singleton_self t)
              have hst : s.last_synced_block ≤ t.blockNumber := by
                rcases hinv.2 with h | ⟨t', ht', h⟩
                · rw [h]; exact hstart t hmem
                · rw [h]; exact hrel t' ht'
              have hsync1 : ((sync_blockchain_events cfg s [t]).1) = (processTx cfg s t).1 := by
                unfold sync_blockchain_events
                cases hpt : processTx cfg s t with
                | mk s1 o1 => cases o1 <;> simp only <;> rfl
              rw [hsync1]
              rcases processTx_cursor cfg s t with h | h
              · rw [h]
              · rw [h]; exact hst

set_option maxRecDepth 200000
set_option maxHeartbeats 4000000

/-! ### Block-by-block SHA-256 evaluation of the two fixture hashes -/

theorem shaBlocksX_eq :
    toBlocks (padMessage (utf8Bytes (dumpsSorted
      (create_loan_metadata "example.com" loanX)))) = shaBlocksX := by
  decide

theorem shaStepX1 :
    compressBlock shaStateX0
      [123, 34, 97, 116, 116, 114, 105, 98, 117, 116, 101, 115, 34, 58, 91, 123, 34, 100, 105, 115, 112, 108, 97, 121, 95, 116, 121, 112, 101, 34, 58, 34, 110, 117, 109, 98, 101, 114, 34, 44, 34, 116, 114, 97, 105, 116, 95, 116, 121, 112, 101, 34, 58, 34, 80, 114, 105, 110, 99, 105, 112, 97, 108, 34] =
      shaStateX1 := by
  decide

theorem shaStepX2 :
    compressBlock shaStateX1
      [44, 34, 118, 97, 108, 117, 101, 34, 58, 34, 49, 48, 48, 48, 48, 46, 48, 48, 34, 125, 44, 123, 34, 100, 105, 115, 112, 108, 97, 121, 95, 116, 121, 112, 101, 34, 58, 34, 112, 101, 114, 99, 101, 110, 116, 97, 103, 101, 34, 44, 34, 116, 114, 97, 105, 116, 95, 116, 121, 112, 101, 34, 58, 34] =
      shaStateX2 := by
  decide

theorem shaStepX3 :
    compressBlock shaStateX2
      [65, 80, 82, 34, 44, 34, 118, 97, 108, 117, 101, 34, 58, 34, 49, 48, 46, 48, 48, 34, 125, 44, 123, 34, 100, 105, 115, 112, 108, 97, 121, 95, 116, 121, 112, 101, 34, 58, 34, 110, 117, 109, 98, 101, 114, 34, 44, 34, 116, 114, 97, 105, 116, 95, 116, 121, 112, 101, 34, 58, 34, 85, 110, 105] =
      shaStateX3 := by
  decide

theorem shaStepX4 :
    compressBlock shaStateX3
      [116, 32, 80, 114, 105, 99, 101, 32, 85, 83, 68, 67, 34, 44, 34, 118, 97, 108, 117, 101, 34, 58, 34, 49, 48, 48, 46, 48, 48, 34, 125, 44, 123, 34, 100, 105, 115, 112, 108, 97, 121, 95, 116, 121, 112, 101, 34, 58, 34, 110, 117, 109, 98, 101, 114, 34, 44, 34, 116, 114, 97, 105, 116, 95] =
      shaStateX4 := by
  decide

theorem shaStepX5 :
    compressBlock shaStateX4
      [116, 121, 112, 101, 34, 58, 34, 84, 101, 114, 109, 32, 77, 111, 110, 116, 104, 115, 34, 44, 34, 118, 97, 108, 117, 101, 34, 58, 49, 50, 125, 44, 123, 34, 100, 105, 115, 112, 108, 97, 121, 95, 116, 121, 112, 101, 34, 58, 34, 110, 117, 109, 98, 101, 114, 34, 44, 34, 116, 114, 97, 105, 116, 95] =
      shaStateX5 := by
  decide

theorem shaStepX6 :
    compressBlock shaStateX5
      [116, 121, 112, 101, 34, 58, 34, 84, 111, 116, 97, 108, 32, 83, 108, 105, 99, 101, 115, 34, 44, 34, 118, 97, 108, 117, 101, 34, 58, 49, 48, 48, 125, 44, 123, 34, 100, 105, 115, 112, 108, 97, 121, 95, 116, 121, 112, 101, 34, 58, 34, 100, 97, 116, 101, 34, 44, 34, 116, 114, 97, 105, 116, 95] =
      shaStateX6 := by
  decide

theorem shaStepX7 :
    compressBlock shaStateX6
      [116, 121, 112, 101, 34, 58, 34, 77, 97, 116, 117, 114, 105, 116, 121, 32, 68, 97, 116, 101, 34, 44, 34, 118, 97, 108, 117, 101, 34, 58, 34, 50, 48, 50, 54, 45, 48, 49, 45, 48, 49, 34, 125, 44, 123, 34, 100, 105, 115, 112, 108, 97, 121, 95, 116, 121, 112, 101, 34, 58, 34, 100, 97, 116] =
      shaStateX7 := by
  decide

theorem shaStepX8 :
    compressBlock shaStateX7
      [101, 34, 44, 34, 116, 114, 97, 105, 116, 95, 116, 121, 112, 101, 34, 58, 34, 83, 116, 97, 114, 116, 32, 68, 97, 116, 101, 34, 44, 34, 118, 97, 108, 117, 101, 34, 58, 34, 50, 48, 50, 53, 45, 48, 49, 45, 48, 49, 34, 125, 44, 123, 34, 100, 105, 115, 112, 108, 97, 121, 95, 116, 121, 112] =
      shaStateX8 := by
  decide

theorem shaStepX9 :
    compressBlock shaStateX8
      [101, 34, 58, 34, 110, 117, 109, 98, 101, 114, 34, 44, 34, 116, 114, 97, 105, 116, 95, 116, 121, 112, 101, 34, 58, 34, 77, 111, 110, 116, 104, 108, 121, 32, 80, 97, 121, 109, 101, 110, 116, 34, 44, 34, 118, 97, 108, 117, 101, 34, 58, 34, 56, 53, 48, 46, 48, 48, 34, 125, 44, 123, 34, 100] =
      shaStateX9 := by
  decide

theorem shaStepX10 :
    compressBlock shaStateX9
      [105, 115, 112, 108, 97, 121, 95, 116, 121, 112, 101, 34, 58, 34, 115, 116, 114, 105, 110, 103, 34, 44, 34, 116, 114, 97, 105, 116, 95, 116, 121, 112, 101, 34, 58, 34, 66, 111, 114, 114, 111, 119, 101, 114, 34, 44, 34, 118, 97, 108, 117, 101, 34, 58, 34, 65, 99, 109, 101, 32, 67, 111, 114, 112] =
      shaStateX10 := by
  decide

theorem shaStepX11 :
    compressBlock shaStateX10
      [34, 125, 44, 123, 34, 116, 114, 97, 105, 116, 95, 116, 121, 112, 101, 34, 58, 34, 65, 115, 115, 101, 116, 32, 67, 108, 97, 115, 115, 34, 44, 34, 118, 97, 108, 117, 101, 34, 58, 34, 80, 114, 105, 118, 97, 116, 101, 32, 67, 114, 101, 100, 105, 116, 34, 125, 93, 44, 34, 100, 101, 115, 99, 114] =
      shaStateX11 := by
  decide

theorem shaStepX12 :
    compressBlock shaStateX11
      [105, 112, 116, 105, 111, 110, 34, 58, 34, 80, 114, 105, 118, 97, 116, 101, 32, 67, 114, 101, 100, 105, 116, 32, 82, 87, 65, 32, 45, 32, 36, 49, 48, 48, 48, 48, 46, 48, 48, 32, 84, 101, 115, 116, 32, 76, 111, 97, 110, 34, 44, 34, 101, 120, 116, 101, 114, 110, 97, 108, 95, 117, 114, 108] =
      shaStateX12 := by
  decide

theorem shaStepX13 :
    compressBlock shaStateX12
      [34, 58, 34, 104, 116, 116, 112, 115, 58, 47, 47, 101, 120, 97, 109, 112, 108, 101, 46, 99, 111, 109, 47, 108, 111, 97, 110, 47, 76, 49, 34, 44, 34, 105, 109, 97, 103, 101, 34, 58, 34, 105, 112, 102, 115, 58, 47, 47, 81, 109, 89, 111, 117, 114, 80, 114, 111, 112, 101, 114, 116, 121, 73, 109] =
      shaStateX13 := by
  decide

theorem shaStepX14 :
    compressBlock shaStateX13
      [97, 103, 101, 72, 97, 115, 104, 34, 44, 34, 110, 97, 109, 101, 34, 58, 34, 76, 111, 97, 110, 32, 76, 49, 34, 125, 128, 0, 0, 0, 0, 0, 0, 0, 0, 0, 0, 0, 0, 0, 0, 0, 0, 0, 0, 0, 0, 0, 0, 0, 0, 0, 0, 0, 0, 0, 0, 0, 0, 0, 0, 0, 26, 208] =
      shaStateX14 := by
  decide

theorem shaFoldX :
    sha256Words (utf8Bytes (dumpsSorted
      (create_loan_metadata "example.com" loanX))) = shaStateX14 := by
  unfold sha256Words
  rw [shaBlocksX_eq]
  show List.foldl compressBlock shaStateX0 shaBlocksX = shaStateX14
  simp only [shaBlocksX, List.foldl_cons, List.foldl_nil,
    shaStepX1, shaStepX2, shaStepX3, shaStepX4, shaStepX5, shaStepX6, shaStepX7, shaStepX8, shaStepX9, shaStepX10, shaStepX11, shaStepX12, shaStepX13, shaStepX14]

theorem hashX_eq :
    calculate_metadata_hash (create_loan_metadata "example.com" loanX) =
      "ec490062b5468ea5551245f79fc480c2362257b4d788c77ee294b70b5af34d09" := by
  unfold calculate_metadata_hash sha256Hex
  rw [shaFoldX]
  decide

theorem shaBlocksY_eq :
    toBlocks (padMessage (utf8Bytes (dumpsSorted
      (create_loan_metadata "example.com" loanY)))) = shaBlocksY := by
  decide

theorem shaStepY1 :
    compressBlock shaStateY0
      [123, 34, 97, 116, 116, 114, 105, 98, 117, 116, 101, 115, 34, 58, 91, 123, 34, 100, 105, 115, 112, 108, 97, 121, 95, 116, 121, 112, 101, 34, 58, 34, 110, 117, 109, 98, 101, 114, 34, 44, 34, 116, 114, 97, 105, 116, 95, 116, 121, 112, 101, 34, 58, 34, 80, 114, 105, 110, 99, 105, 112, 97, 108, 34] =
      shaStateY1 := by
  decide

theorem shaStepY2 :
    compressBlock shaStateY1
      [44, 34, 118, 97, 108, 117, 101, 34, 58, 34, 49, 48, 48, 48, 49, 46, 48, 48, 34, 125, 44, 123, 34, 100, 105, 115, 112, 108, 97, 121, 95, 116, 121, 112, 101, 34, 58, 34, 112, 101, 114, 99, 101, 110, 116, 97, 103, 101, 34, 44, 34, 116, 114, 97, 105, 116, 95, 116, 121, 112, 101, 34, 58, 34] =
      shaStateY2 := by
  decide

theorem shaStepY3 :
    compressBlock shaStateY2
      [65, 80, 82, 34, 44, 34, 118, 97, 108, 117, 101, 34, 58, 34, 49, 48, 46, 48, 48, 34, 125, 44, 123, 34, 100, 105, 115, 112, 108, 97, 121, 95, 116, 121, 112, 101, 34, 58, 34, 110, 117, 109, 98, 101, 114, 34, 44, 34, 116, 114, 97, 105, 116, 95, 116, 121, 112, 101, 34, 58, 34, 85, 110, 105] =
      shaStateY3 := by
  decide

theorem shaStepY4 :
    compressBlock shaStateY3
      [116, 32, 80, 114, 105, 99, 101, 32, 85, 83, 68, 67, 34, 44, 34, 118, 97, 108, 117, 101, 34, 58, 34, 49, 48, 48, 46, 48, 48, 34, 125, 44, 123, 34, 100, 105, 115, 112, 108, 97, 121, 95, 116, 121, 112, 101, 34, 58, 34, 110, 117, 109, 98, 101, 114, 34, 44, 34, 116, 114, 97, 105, 116, 95] =
      shaStateY4 := by
  decide

theorem shaStepY5 :
    compressBlock shaStateY4
      [116, 121, 112, 101, 34, 58, 34, 84, 101, 114, 109, 32, 77, 111, 110, 116, 104, 115, 34, 44, 34, 118, 97, 108, 117, 101, 34, 58, 49, 50, 125, 44, 123, 34, 100, 105, 115, 112, 108, 97, 121, 95, 116, 121, 112, 101, 34, 58, 34, 110, 117, 109, 98, 101, 114, 34, 44, 34, 116, 114, 97, 105, 116, 95] =
      shaStateY5 := by
  decide

theorem shaStepY6 :
    compressBlock shaStateY5
      [116, 121, 112, 101, 34, 58, 34, 84, 111, 116, 97, 108, 32, 83, 108, 105, 99, 101, 115, 34, 44, 34, 118, 97, 108, 117, 101, 34, 58, 49, 48, 48, 125, 44, 123, 34, 100, 105, 115, 112, 108, 97, 121, 95, 116, 121, 112, 101, 34, 58, 34, 100, 97, 116, 101, 34, 44, 34, 116, 114, 97, 105, 116, 95] =
      shaStateY6 := by
  decide

theorem shaStepY7 :
    compressBlock shaStateY6
      [116, 121, 112, 101, 34, 58, 34, 77, 97, 116, 117, 114, 105, 116, 121, 32, 68, 97, 116, 101, 34, 44, 34, 118, 97, 108, 117, 101, 34, 58, 34, 50, 48, 50, 54, 45, 48, 49, 45, 48, 49, 34, 125, 44, 123, 34, 100, 105, 115, 112, 108, 97, 121, 95, 116, 121, 112, 101, 34, 58, 34, 100, 97, 116] =
      shaStateY7 := by
  decide

theorem shaStepY8 :
    compressBlock shaStateY7
      [101, 34, 44, 34, 116, 114, 97, 105, 116, 95, 116, 121, 112, 101, 34, 58, 34, 83, 116, 97, 114, 116, 32, 68, 97, 116, 101, 34, 44, 34, 118, 97, 108, 117, 101, 34, 58, 34, 50, 48, 50, 53, 45, 48, 49, 45, 48, 49, 34, 125, 44, 123, 34, 100, 105, 115, 112, 108, 97, 121, 95, 116, 121, 112] =
      shaStateY8 := by
  decide

theorem shaStepY9 :
    compressBlock shaStateY8
      [101, 34, 58, 34, 110, 117, 109, 98, 101, 114, 34, 44, 34, 116, 114, 97, 105, 116, 95, 116, 121, 112, 101, 34, 58, 34, 77, 111, 110, 116, 104, 108, 121, 32, 80, 97, 121, 109, 101, 110, 116, 34, 44, 34, 118, 97, 108, 117, 101, 34, 58, 34, 56, 53, 48, 46, 48, 48, 34, 125, 44, 123, 34, 100] =
      shaStateY9 := by
  decide

theorem shaStepY10 :
    compressBlock shaStateY9
      [105, 115, 112, 108, 97, 121, 95, 116, 121, 112, 101, 34, 58, 34, 115, 116, 114, 105, 110, 103, 34, 44, 34, 116, 114, 97, 105, 116, 95, 116, 121, 112, 101, 34, 58, 34, 66, 111, 114, 114, 111, 119, 101, 114, 34, 44, 34, 118, 97, 108, 117, 101, 34, 58, 34, 65, 99, 109, 101, 32, 67, 111, 114, 112] =
      shaStateY10 := by
  decide

theorem shaStepY11 :
    compressBlock shaStateY10
      [34, 125, 44, 123, 34, 116, 114, 97, 105, 116, 95, 116, 121, 112, 101, 34, 58, 34, 65, 115, 115, 101, 116, 32, 67, 108, 97, 115, 115, 34, 44, 34, 118, 97, 108, 117, 101, 34, 58, 34, 80, 114, 105, 118, 97, 116, 101, 32, 67, 114, 101, 100, 105, 116, 34, 125, 93, 44, 34, 100, 101, 115, 99, 114] =
      shaStateY11 := by
  decide

theorem shaStepY12 :
    compressBlock shaStateY11
      [105, 112, 116, 105, 111, 110, 34, 58, 34, 80, 114, 105, 118, 97, 116, 101, 32, 67, 114, 101, 100, 105, 116, 32, 82, 87, 65, 32, 45, 32, 36, 49, 48, 48, 48, 49, 46, 48, 48, 32, 84, 101, 115, 116, 32, 76, 111, 97, 110, 34, 44, 34, 101, 120, 116, 101, 114, 110, 97, 108, 95, 117, 114, 108] =
      shaStateY12 := by
  decide

theorem shaStepY13 :
    compressBlock shaStateY12
      [34, 58, 34, 104, 116, 116, 112, 115, 58, 47, 47, 101, 120, 97, 109, 112, 108, 101, 46, 99, 111, 109, 47, 108, 111, 97, 110, 47, 76, 49, 34, 44, 34, 105, 109, 97, 103, 101, 34, 58, 34, 105, 112, 102, 115, 58, 47, 47, 81, 109, 89, 111, 117, 114, 80, 114, 111, 112, 101, 114, 116, 121, 73, 109] =
      shaStateY13 := by
  decide

theorem shaStepY14 :
    compressBlock shaStateY13
      [97, 103, 101, 72, 97, 115, 104, 34, 44, 34, 110, 97, 109, 101, 34, 58, 34, 76, 111, 97, 110, 32, 76, 49, 34, 125, 128, 0, 0, 0, 0, 0, 0, 0, 0, 0, 0, 0, 0, 0, 0, 0, 0, 0, 0, 0, 0, 0, 0, 0, 0, 0, 0, 0, 0, 0, 0, 0, 0, 0, 0, 0, 26, 208] =
      shaStateY14 := by
  decide

theorem shaFoldY :
    sha256Words (utf8Bytes (dumpsSorted
      (create_loan_metadata "example.com" loanY))) = shaStateY14 := by
  unfold sha256Words
  rw [shaBlocksY_eq]
  show List.foldl compressBlock shaStateY0 shaBlocksY = shaStateY14
  simp only [shaBlocksY, List.foldl_cons, List.foldl_nil,
    shaStepY1, shaStepY2, shaStepY3, shaStepY4, shaStepY5, shaStepY6, shaStepY7, shaStepY8, shaStepY9, shaStepY10, shaStepY11, shaStepY12, shaStepY13, shaStepY14]

theorem hashY_eq :
    calculate_metadata_hash (create_loan_metadata "example.com" loanY) =
      "73bc5a4c8c33878993130a3630417a58b64187d755d0f4bd96ffd358ead36577" := by
  unfold calculate_metadata_hash sha256Hex
  rw [shaFoldY]
  decide

/-! ## The claims -/

/-- C1: against the claim, the reconciler keys the dividend `CashflowHistory`
row by the transaction hash alone (`unique_id = f"{tx['hash']}"`), so a
deposit over the two-position loan `L7` (40/60 slices, 1,000,000 micro-USDC)
leaves exactly one row — attributed to the last-iterated investor `0xb` —
credits only the first-iterated investor `0xa` with 0.40, and credits `0xb`
nothing; replaying the event changes nothing further. -/
theorem dividends_single_row_single_credit :
    ((processEvent testCfg "0xh" 123 dbTwoPos (.dividendsDeposited 7 1000000)).toOption.map
      (fun d => (d.positions.map (fun p => (p.investor, p.balance_due)),
                 d.cashflows.map (fun c => (c.investor, c.tx_hash, c.amount))))) =
      some ([("0xa", 2 / 5), ("0xb", 0)], [("0xb", "0xh", 3 / 5)]) ∧
    (((processEvent testCfg "0xh" 123 dbTwoPos (.dividendsDeposited 7 1000000)).toOption.bind
      (fun d => (processEvent testCfg "0xh" 123 d (.dividendsDeposited 7 1000000)).toOption)).map
      (fun d => (d.positions.map (fun p => (p.investor, p.balance_due)),
                 d.cashflows.length))) =
      some ([("0xa", 2 / 5), ("0xb", 0)], 1) := by
  constructor <;> decide

/-- C2: a secondary transfer of 50 slices from a sender owning 10 succeeds
and persists `slices_owned = -40`; the code performs no balance check. -/
theorem transfer_overdraw_persists_negative :
    ((processEvent testCfg "0xt" 5 dbSender10 (.transferSingle 7 "0xa" "0xc" 50)).toOption.map
      (fun d => d.positions.map (fun p => (p.investor, p.slices_owned)))) =
      some [("0xa", -40), ("0xc", 50)] := by
  decide

/-- C3 (counterexample): a single successful mint of 150 slices on a loan
whose metadata says `total_slices = 100` drives the position sum to 150,
violating the claimed invariant. -/
theorem slices_invariant_counterexample :
    (runEvents testCfg "0xm" 1 [.transferSingle 7 zeroAddress "0xa" 150] dbEmpty).2 = none ∧
    ((runEvents testCfg "0xm" 1 [.transferSingle 7 zeroAddress "0xa" 150] dbEmpty).1.loans.map
      (fun l => l.total_slices)) = [100] ∧
    ¬ slicesTotal
        (runEvents testCfg "0xm" 1 [.transferSingle 7 zeroAddress "0xa" 150] dbEmpty).1 ≤
        100 := by
  refine ⟨by decide, by decide, by decide⟩

/-- C3 (amended): what the reconciler guarantees is conservation, not the
bound — over any error-free event run, the sum of `slices_owned` grows by
exactly the value minted to non-admin recipients (secondary transfers
preserve it); nothing checks the sum against `total_slices`. -/
theorem slices_conservation (cfg : Config) (txh : String) (blk : ℕ)
    (evs : List Event) (db db' : DB)
    (hrun : runEvents cfg txh blk evs db = (db', none)) :
    slicesTotal db' = slicesTotal db + mintedTotal cfg evs := by
  induction evs generalizing db with
  | nil =>
      simp only [runEvents, Prod.mk.injEq] at hrun
      rw [← hrun.1]
      simp [mintedTotal]
  | cons e es ih =>
      unfold runEvents at hrun
      cases hpe : processEvent cfg txh blk db e with
      | ok db1 =>
          rw [hpe] at hrun
          rw [ih db1 hrun, processEvent_slices cfg txh blk db e db1 hpe]
          simp [mintedTotal]
          ring
      | error m => rw [hpe] at hrun; simp at hrun

/-- C3 (witness): the conservation law evaluated on the 40/60 mint plus
dividend scenario. -/
theorem slices_conservation_witness :
    runEvents testCfg "0xh" 1 endToEndEvents dbEmpty = (endToEndDb, none) ∧
    slicesTotal endToEndDb = slicesTotal dbEmpty + mintedTotal testCfg endToEndEvents :=
  ⟨by decide,
   slices_conservation testCfg "0xh" 1 endToEndEvents dbEmpty endToEndDb (by decide)⟩

/-- C4 (counterexample): the distribution view computes
`(slices / total) * amount` with no rounding, so for 1 slice of 128 and an
amount of 1.00 it yields `1/128 = 0.0078125`, while the reconciler dividend
path yields `round(1.00 * 1 / 128, 6) = 0.007812`: the two paths do not
share one rounding rule. -/
theorem distribution_rounding_counterexample :
    spv_share 1 128 1 = 1 / 128 ∧
    reconciler_share 1000000 1 128 = 7812 / 1000000 ∧
    spv_share 1 128 1 ≠ reconciler_share 1000000 1 128 := by
  refine ⟨by decide, by decide, by decide⟩

/-- C4 (amended): on the specific 33/33/34-of-100 example with 100.00 the
engine's divide-first shares are still 33.00, 33.00 and 34.00, summing
exactly to 100.00, and agree there with the reconciler's
multiply-then-divide-then-quantize shares. -/
theorem distribution_example_33_33_34 :
    spv_share 33 100 100 = 33 ∧ spv_share 34 100 100 = 34 ∧
    spv_share 33 100 100 + spv_share 33 100 100 + spv_share 34 100 100 = 100 ∧
    reconciler_share 100000000 33 100 = 33 ∧
    reconciler_share 100000000 34 100 = 34 := by
  refine ⟨by decide, by decide, by decide, by decide, by decide⟩

/-- C5: the Routescan query starts at `last_synced_block + 1`; no event
write touches the cursor; a successfully processed transaction persists its
block number into the cursor; and over a batch that is ascending in block
number and entirely past the cursor, the cursor never decreases — neither
across the whole run nor from any prefix to the next. -/
theorem sync_cursor_monotone (cfg : Config) (db : DB) (txs : List Tx)
    (hstart : ∀ tx ∈ txs, startblockParam db ≤ tx.blockNumber)
    (hsorted : txs.Pairwise (fun a b => a.blockNumber ≤ b.blockNumber)) :
    startblockParam db = db.last_synced_block + 1 ∧
    (∀ (h : String) (b : ℕ) (e : Event) (d1 d2 : DB),
      processEvent cfg h b d1 e = .ok d2 →
        d2.last_synced_block = d1.last_synced_block) ∧
    (∀ (d : DB) (tx : Tx), tx.status = 1 →
      (runEvents cfg tx.hash tx.blockNumber tx.events d).2 = none →
      ((processTx cfg d tx).1).last_synced_block = tx.blockNumber) ∧
    db.last_synced_block ≤ ((sync_blockchain_events cfg db txs).1).last_synced_block ∧
    (∀ n : ℕ, ((sync_blockchain_events cfg db (txs.take n)).1).last_synced_block ≤
      ((sync_blockchain_events cfg db (txs.take (n + 1))).1).last_synced_block) := by
  have hstart' : ∀ t ∈ txs, db.last_synced_block ≤ t.blockNumber :=
    fun t ht => Nat.le_of_succ_le (hstart t ht)
  refine ⟨rfl, ?_, ?_, ?_, ?_⟩
  · exact fun h b e d1 d2 => processEvent_cursor cfg h b d1 e d2
  · intro d tx hst hrun2
    have hne : (tx.status != 1) = false := by simp [hst]
    cases hrun : runEvents cfg tx.hash tx.blockNumber tx.events d with
    | mk d1 o =>
        rw [hrun] at hrun2
        simp only at hrun2
        subst hrun2
        simp [processTx, hne, hrun]
  · exact (sync_run_inv cfg txs db hstart' hsorted).1
  · exact sync_take_mono cfg db txs hstart' hsorted

/-- C5 (witness): the cursor facts instantiated on a ledger at block 500 and
two successful transactions at blocks 501 and 502. -/
theorem sync_cursor_monotone_witness :
    (∀ tx ∈ [tx501, tx502], startblockParam db500 ≤ tx.blockNumber) ∧
    ([tx501, tx502].Pairwise (fun a b => a.blockNumber ≤ b.blockNumber)) ∧
    db500.last_synced_block ≤
      ((sync_blockchain_events testCfg db500 [tx501, tx502]).1).last_synced_block :=
  ⟨by decide, by decide,
   (sync_cursor_monotone testCfg db500 [tx501, tx502] (by decide) (by decide)).2.2.2.1⟩

/-- C6: `sync_chain.py` parses `--reset` but `handle` never reads it — the
run is identical with and without the flag, and with the cursor at 500 a
`--reset` invocation still leaves it at 500 and would fetch from block 501,
not from block 0. -/
theorem sync_chain_reset_ignored :
    (∀ (cfg : Config) (db : DB) (txs : List Tx),
      sync_chain_handle true cfg db txs = sync_chain_handle false cfg db txs) ∧
    (sync_chain_handle true testCfg db500 []).1.last_synced_block = 500 ∧
    startblockParam (sync_chain_handle true testCfg db500 []).1 = 501 :=
  ⟨fun _ _ _ => rfl, by decide, by decide⟩

/-- C9: in `spv_distribute_payment` the on-chain deposit runs first, and
when it raises, the view returns with the ledger untouched and the
user-visible message `Distribution Failed: <reason>`. -/
theorem distribute_chain_failure_no_mutation (loan : LoanRow) (db : DB) (e : String) :
    spv_distribute_payment loan (.error e) db =
      (db, some ("Distribution Failed: " ++ e)) := rfl

/-- C9 (witness): the failure path evaluated on the two-position ledger. -/
theorem distribute_chain_failure_no_mutation_witness :
    spv_distribute_payment loanL7 (.error "boom") dbTwoPos =
      (dbTwoPos, some ("Distribution Failed: " ++ "boom")) :=
  distribute_chain_failure_no_mutation loanL7 dbTwoPos "boom"

/-- C10: `Loan.check_integrity` returns a boolean for every fetch outcome:
`True` exactly when the fetch-and-parse succeeded and the recomputed hash of
the live document equals the stored `metadata_hash`; every failure of the
fetch, the parse, or the comparison yields the same `False` as a tampering
mismatch, and nothing is written. -/
theorem check_integrity_iff (stored : Option String) (fetched : Except Unit J) :
    check_integrity stored fetched = true ↔
      ∃ doc : J, fetched = .ok doc ∧ stored = some (calculate_metadata_hash doc) := by
  cases fetched with
  | error u => simp [check_integrity]
  | ok doc =>
      cases stored with
      | none => simp [check_integrity]
      | some h =>
          simp only [check_integrity, beq_iff_eq]
          constructor
          · intro hh
            exact ⟨doc, rfl, by rw [hh]⟩
          · rintro ⟨doc2, hdoc, hsome⟩
            injection hdoc with hd
            subst hd
            injection hsome with hs
            exact hs.symm

/-- C10 (witness): the equivalence instantiated at a concrete document. -/
theorem check_integrity_iff_witness :
    check_integrity (some (calculate_metadata_hash (J.int 1)))
        (.ok (J.int 1)) = true ↔
      ∃ doc : J, (Except.ok (J.int 1) : Except Unit J) = .ok doc ∧
        some (calculate_metadata_hash (J.int 1)) = some (calculate_metadata_hash doc) :=
  check_integrity_iff (some (calculate_metadata_hash (J.int 1))) (.ok (J.int 1))

/-- C8: the mint branch stores the recipient address verbatim (`event.to`,
tasks.py line 132) while the transfer branch lower-cases addresses, so a
mint to `0xABcd` creates the investor row `0xABcd` — not `0xabcd` — and a
later transfer out of the same wallet looks up the lower-cased address,
finds no position, and raises instead of resolving the same investor. -/
theorem mint_transfer_case_mismatch :
    ((processEvent testCfg "0xm" 1 dbEmpty
        (.transferSingle 7 zeroAddress "0xABcd" 10)).toOption.map
      (fun d => d.investors)) = some ["0xABcd"] ∧
    ((processEvent testCfg "0xm" 1 dbEmpty
        (.transferSingle 7 zeroAddress "0xABcd" 10)).toOption.map
      (fun d => exceptError
        (processEvent testCfg "0xn" 2 d (.transferSingle 7 "0xABcd" "0xEF" 5)))) =
      some (some "InvestorPosition matching query does not exist.") := by
  refine ⟨by decide, by decide⟩

set_option maxRecDepth 200000 in
set_option maxHeartbeats 4000000 in
/-- C7: the metadata commitment reads only the canonicalized loan fields
(so recomputing it on an unmodified loan gives the same hash); changing the
principal alone changes the SHA-256; and re-parsing the serialized document
the way the verifier does (`json.loads` of the canonical dump) hashes back
to the same value. -/
theorem metadata_hash_deterministic_sensitive_roundtrip :
    (∀ (site : String) (l1 l2 : LoanRow),
      l1.loan_id = l2.loan_id → l1.title = l2.title → l1.borrower = l2.borrower →
      l1.principal = l2.principal →
      l1.annual_interest_rate = l2.annual_interest_rate →
      l1.term_months = l2.term_months → l1.start_date = l2.start_date →
      l1.maturity_date = l2.maturity_date → l1.monthly_payment = l2.monthly_payment →
      l1.total_slices = l2.total_slices → l1.unit_price_usdc = l2.unit_price_usdc →
      calculate_metadata_hash (create_loan_metadata site l1) =
        calculate_metadata_hash (create_loan_metadata site l2)) ∧
    calculate_metadata_hash (create_loan_metadata "example.com" loanX) ≠
      calculate_metadata_hash (create_loan_metadata "example.com" loanY) ∧
    ((pyJsonLoads (dumpsSorted (create_loan_metadata "example.com" loanX))).map
      calculate_metadata_hash) =
      some (calculate_metadata_hash (create_loan_metadata "example.com" loanX)) := by
  refine ⟨?_, ?_, ?_⟩
  · intro site l1 l2 h1 h2 h3 h4 h5 h6 h7 h8 h9 h10 h11
    unfold create_loan_metadata
    rw [h1, h2, h3, h4, h5, h6, h7, h8, h9, h10, h11]
  · rw [hashX_eq, hashY_eq]
    decide
  · have hparse : ((pyJsonLoads (dumpsSorted (create_loan_metadata "example.com" loanX))).map
        dumpsSorted) = some (dumpsSorted (create_loan_metadata "example.com" loanX)) := by
      decide
    cases hp : pyJsonLoads (dumpsSorted (create_loan_metadata "example.com" loanX)) with
    | none => rw [hp] at hparse; simp at hparse
    | some doc =>
        rw [hp] at hparse
        injection hparse with hs
        show some (calculate_metadata_hash doc) =
          some (calculate_metadata_hash (create_loan_metadata "example.com" loanX))
        unfold calculate_metadata_hash
        rw [hs]

/-- C7 (witness): the field-dependence part applied to a loan and a copy
that differs only in non-canonical fields (status, tokenization flags):
the hash is unchanged. -/
theorem metadata_hash_witness :
    calculate_metadata_hash (create_loan_metadata "example.com" loanX) =
      calculate_metadata_hash (create_loan_metadata "example.com"
        { loanX with status := "late", tokenized := true, token_contract := "0xC" }) :=
  metadata_hash_deterministic_sensitive_roundtrip.1 "example.com" loanX
    { loanX with status := "late", tokenized := true, token_contract := "0xC" }
    rfl rfl rfl rfl rfl rfl rfl rfl rfl rfl rfl

end RWA
